import Mathlib

/-!
Verification of the clinical-text tokenizer configuration
(`src/legacy/data/tokenizer.py`) and the fine-tuning/evaluation driver
(`src/legacy/finetune/tune_eval.py`) of the `som-shahlab/just-the-facts`
repository, against its natural-language specification.

The Python regular expressions are embedded as an abstract syntax tree
(`RE`) together with an executable matching semantics (`matchEnds`,
`reSearch`) that mirrors the semantics of Python's `re` module on the
construct subset actually used by the repository: character classes with
code-point ranges, concatenation, alternation, `*`/`+`/`?`/`{m,n}`
repetition, the anchors `^` and `$` (no MULTILINE flag, so `^` matches
only at the start of the string and `$` at the end of the string or just
before a trailing newline), and the word boundary `\b`.
-/

namespace JustTheFacts

/-- The apostrophe character (code point 39). -/
def apos : Char := Char.ofNat 39

/-- The one-character string holding an apostrophe. -/
def aposStr : String := String.singleton apos

/-- Abstract syntax of the regular-expression subset used by
`src/legacy/data/tokenizer.py`.  A character class is a list of inclusive
code-point ranges (a literal character is the degenerate range from that
character to itself, exactly as Python's `re` treats `a-b` ranges and
singleton members of a `[...]` class). -/
inductive RE where
  | eps : RE
  | cls (ranges : List (Char × Char)) : RE
  | seq (a b : RE) : RE
  | alt (a b : RE) : RE
  | star (a : RE) : RE
  | bos : RE
  | eos : RE
  | wb : RE
deriving DecidableEq

/-- Membership of a character in a class given by inclusive code-point
ranges, exactly Python's `[...]` semantics on code points. -/
def inCls (ranges : List (Char × Char)) (c : Char) : Bool :=
  ranges.any fun p => p.1.toNat ≤ c.toNat && c.toNat ≤ p.2.toNat

/-- Python `\w` word characters (ASCII letters, digits, underscore) as used
by the `\b` assertion on the patterns at hand (all relevant text is ASCII). -/
def isWordChar (c : Char) : Bool := c.isAlphanum || c == '_'

/-- Whether position `i` of `full` is a Python `\b` word boundary. -/
def atWordBoundary (full : List Char) (i : Nat) : Bool :=
  let w : Option Char → Bool := fun o => match o with
    | some c => isWordChar c
    | none => false
  let before := if i = 0 then none else full[i - 1]?
  w before != w full[i]?

/-- Iterate a nondeterministic single-step matcher, as required for `r*`:
all positions reachable from `i` by zero or more `r`-matches.  Only
strictly advancing steps are taken (a step that consumes nothing cannot
change the set of reachable end positions), so `full.length + 1` units of
fuel always suffice. -/
def starLoop (step : Nat → List Nat) : Nat → Nat → List Nat
  | 0, i => [i]
  | fuel + 1, i =>
      i :: ((step i).filter (fun j => decide (i < j))).flatMap (starLoop step fuel)

/-- All end positions of matches of `r` in `full` that start at position
`i`.  This is the (nondeterministic) match relation of the regex; Python's
`re.search` finds a match iff some start position admits some end position. -/
def matchEnds (full : List Char) : RE → Nat → List Nat
  | .eps, i => [i]
  | .cls rs, i =>
      match full[i]? with
      | some c => if inCls rs c then [i + 1] else []
      | none => []
  | .seq a b, i => ((matchEnds full a i).flatMap (matchEnds full b)).dedup
  | .alt a b, i => (matchEnds full a i ++ matchEnds full b i).dedup
  | .star a, i => starLoop (matchEnds full a) (full.length + 1) i
  | .bos, i => if i = 0 then [i] else []
  | .eos, i =>
      if i = full.length then [i]
      else if i + 1 = full.length ∧ full[i]? = some '\n' then [i]
      else []
  | .wb, i => if atWordBoundary full i then [i] else []

/-- Python `re.search`: does the pattern match anywhere in the string? -/
def reSearch (r : RE) (s : String) : Bool :=
  (List.range (s.length + 1)).any fun i => !(matchEnds s.toList r i).isEmpty

/-- A single literal character. -/
def REchar (c : Char) : RE := RE.cls [(c, c)]

/-- A literal string (concatenation of its characters). -/
def REstr (s : String) : RE := s.toList.foldr (fun c r => RE.seq (REchar c) r) RE.eps

/-- Concatenation of a list of regexes. -/
def REcat (l : List RE) : RE := l.foldr RE.seq RE.eps

/-- `r+` (one or more). -/
def REplus (r : RE) : RE := RE.seq r (RE.star r)

/-- `r?` (zero or one). -/
def REopt (r : RE) : RE := RE.alt r RE.eps

/-- `r{m,n}` (between `m` and `n` copies). -/
def RErep (m n : Nat) (r : RE) : RE :=
  REcat (List.replicate m r ++ List.replicate (n - m) (REopt r))

/-- Join a list of patterns with `|`, as Python's `"|".join` does in
`build_token_match_rgx`. -/
def REjoin : List RE → RE
  | [] => RE.eps
  | [r] => r
  | r :: rest => RE.alt r (REjoin rest)

/-- The class `[0-9]`. -/
def REdigit : RE := RE.cls [('0', '9')]

end JustTheFacts

namespace JustTheFacts

/-! ## The tokenizer's affix patterns (`ct_tokenizer`, tokenizer.py lines 1008-1010) -/

/-- The character class of `prefix_re`, written
`[\["'()*+-?/<>#%]`.  Note that `+-?` is a *range* from `'+'` (code
point 43) to `'?'` (code point 63); that range contains the digits
`0`-`9` as well as `,-./:;<=>`. -/
def prefixCls : List (Char × Char) :=
  [('[', '['), ('"', '"'), (apos, apos), ('(', '('), (')', ')'), ('*', '*'),
   ('+', '?'), ('/', '/'), ('<', '<'), ('>', '>'), ('#', '#'), ('%', '%')]

/-- `prefix_re = re.compile(r"^([\["'()*+-?/<>#%]+|[><][=])+")`. -/
def prefix_re : RE :=
  RE.seq RE.bos
    (REplus (RE.alt (REplus (RE.cls prefixCls))
      (RE.seq (RE.cls [('>', '>'), ('<', '<')]) (REchar '='))))

/-- The character class of `suffix_re`, written `[\]"'),-.:;*]`; `,-.` is
the range from `','` (44) to `'.'` (46). -/
def suffixCls : List (Char × Char) :=
  [(']', ']'), ('"', '"'), (apos, apos), (')', ')'), (',', '.'), (':', ':'), (';', ';'),
   ('*', '*')]

/-- `suffix_re = re.compile(r"([\]"'),-.:;*]|'s)$")`: one class character
or the literal apostrophe-s, anchored at the end. -/
def suffix_re : RE :=
  RE.seq (RE.alt (RE.cls suffixCls) (REstr (aposStr ++ "s"))) RE.eos

/-- The character class of `infix_re`, written `[%(),-./;=?]`; `,-.` is
the range from `','` (44) to `'.'` (46). -/
def infixCls : List (Char × Char) :=
  [('%', '%'), ('(', '('), (')', ')'), (',', '.'), ('/', '/'), (';', ';'), ('=', '='),
   ('?', '?')]

/-- `infix_re = re.compile(r"[%(),-./;=?]+")`. -/
def infix_re : RE := REplus (RE.cls infixCls)

/-! ## `build_token_match_rgx` (tokenizer.py lines 950-988) -/

/-- `^[(][0-9]` — leading parenthesis then digit. -/
def include_rgx_1 : RE := REcat [RE.bos, REchar '(', REdigit]

/-- `[/][0-9]+[,]$`. -/
def include_rgx_2 : RE := REcat [REchar '/', REplus REdigit, REchar ',', RE.eos]

/-- `[0-9]+[/][0-9]+[.,]$` — dates with trailing punctuation. -/
def include_rgx_3 : RE :=
  REcat [REplus REdigit, REchar '/', REplus REdigit, RE.cls [('.', '.'), (',', ',')], RE.eos]

/-- The `include_rgx` pattern list of `build_token_match_rgx`. -/
def include_rgx_list : List RE := [include_rgx_1, include_rgx_2, include_rgx_3]

/-- `^[0-9]{1,3}[.][0-9]{1,2}[/][0-9]{1,3}[.][0-9]{1,2}$` — ratio of floats. -/
def exclude_rgx_1 : RE :=
  REcat [RE.bos, RErep 1 3 REdigit, REchar '.', RErep 1 2 REdigit, REchar '/',
         RErep 1 3 REdigit, REchar '.', RErep 1 2 REdigit, RE.eos]

/-- `^[-]*[0-9]{1,3}[.][0-9]{1,4}$` — e.g. 100.02, -1.002. -/
def exclude_rgx_2 : RE :=
  REcat [RE.bos, RE.star (REchar '-'), RErep 1 3 REdigit, REchar '.', RErep 1 4 REdigit,
         RE.eos]

/-- `^([0-9]{3}[.]){2}[0-9]{4}$` — phone numbers. -/
def exclude_rgx_3 : RE :=
  REcat [RE.bos, RErep 2 2 (RE.seq (RErep 3 3 REdigit) (REchar '.')), RErep 4 4 REdigit,
         RE.eos]

/-- `^[A-Z]*[0-9]+[.][0-9A-Z]+$` — ICD9 codes. -/
def exclude_rgx_4 : RE :=
  REcat [RE.bos, RE.star (RE.cls [('A', 'Z')]), REplus REdigit, REchar '.',
         REplus (RE.cls [('0', '9'), ('A', 'Z')]), RE.eos]

/-- `^[0-9]+[.][0-9]+([%]|mm|cm|mg|ml)$` — measurements. -/
def exclude_rgx_5 : RE :=
  REcat [RE.bos, REplus REdigit, REchar '.', REplus REdigit,
         REjoin [REchar '%', REstr ("mm"), REstr ("cm"), REstr ("mg"), REstr ("ml")], RE.eos]

/-- `[0-9]+[.][0-9]+[-][0-9]+[.][0-9]+` — ranges/intervals. -/
def exclude_rgx_6 : RE :=
  REcat [REplus REdigit, REchar '.', REplus REdigit, REchar '-', REplus REdigit,
         REchar '.', REplus REdigit]

/-- `^[0-9]+[.][0-9]+$`. -/
def exclude_rgx_7 : RE :=
  REcat [RE.bos, REplus REdigit, REchar '.', REplus REdigit, RE.eos]

/-- The eighth element of the `exclude_rgx` list.  In the Python source
the two adjacent string literals
`r"^([A-Z][\.]|[1-9][0-9]*[\.)])$"` (list item / single letter)
and `r"[0-9]+[/][0-9]+"` (fractions, blood pressure) are *not* separated
by a comma, so Python string-literal concatenation joins them into the
single pattern `^([A-Z][\.]|[1-9][0-9]*[\.)])$[0-9]+[/][0-9]+`. -/
def exclude_rgx_8 : RE :=
  REcat [RE.bos,
         RE.alt (RE.seq (RE.cls [('A', 'Z')]) (REchar '.'))
                (REcat [RE.cls [('1', '9')], RE.star REdigit, RE.cls [('.', '.'), (')', ')')]]),
         RE.eos,
         REplus REdigit, REchar '/', REplus REdigit]

/-- `([01][0-9]/[0-3][0-9])` — dates like 11/12. -/
def exclude_rgx_9 : RE :=
  REcat [RE.cls [('0', '1')], REdigit, REchar '/', RE.cls [('0', '3')], REdigit]

/-- `[0-1]{0,1}[0-9][/]([3][01]|[12][0-9]|[0-9])[/]((19|20)[0-9]{2}|[0-3][0-9])\b` — dates. -/
def exclude_rgx_10 : RE :=
  REcat [RErep 0 1 (RE.cls [('0', '1')]), REdigit, REchar '/',
         REjoin [RE.seq (REchar '3') (RE.cls [('0', '1')]),
                 RE.seq (RE.cls [('1', '2')]) REdigit,
                 REdigit],
         REchar '/',
         RE.alt (RE.seq (RE.alt (REstr ("19")) (REstr ("20"))) (RErep 2 2 REdigit))
                (RE.seq (RE.cls [('0', '3')]) REdigit),
         RE.wb]

/-- `http[s]?://(?:[a-zA-Z]|[0-9]|[$-_@.&+]|[!*\(\), ]|(?:%[0-9a-fA-F][0-9a-fA-F]))+` — URL.
Note `$-_` is the code-point range 36-95. -/
def exclude_rgx_11 : RE :=
  REcat [REstr ("http"), REopt (REchar 's'), REstr ("://"),
         REplus (REjoin
           [RE.cls [('a', 'z'), ('A', 'Z')],
            REdigit,
            RE.cls [('$', '_'), ('@', '@'), ('.', '.'), ('&', '&'), ('+', '+')],
            RE.cls [('!', '!'), ('*', '*'), ('(', '('), (')', ')'), (',', ','), (' ', ' ')],
            REcat [REchar '%', RE.cls [('0', '9'), ('a', 'f'), ('A', 'F')],
                   RE.cls [('0', '9'), ('a', 'f'), ('A', 'F')]]])]

/-- `^([0-9]{1,2}|[A-Z])[).]$` — list items: 1. 1) A. -/
def exclude_rgx_12 : RE :=
  REcat [RE.bos, RE.alt (RErep 1 2 REdigit) (RE.cls [('A', 'Z')]),
         RE.cls [(')', ')'), ('.', '.')], RE.eos]

/-- `[0-2][0-9][:][0-9]{2}[:][0-9]{2}[.][0-9]` — times 11:09:00.0. -/
def exclude_rgx_13 : RE :=
  REcat [RE.cls [('0', '2')], REdigit, REchar ':', RErep 2 2 REdigit, REchar ':',
         RErep 2 2 REdigit, REchar '.', REdigit]

/-- `[A-Za-z()]+[-<]{1,2}[0-9]{1,2}[.][0-9]{1,2}[*#]{0,2}` — lab values. -/
def exclude_rgx_14 : RE :=
  REcat [REplus (RE.cls [('A', 'Z'), ('a', 'z'), ('(', '('), (')', ')')]),
         RErep 1 2 (RE.cls [('-', '-'), ('<', '<')]),
         RErep 1 2 REdigit, REchar '.', RErep 1 2 REdigit,
         RErep 0 2 (RE.cls [('*', '*'), ('#', '#')])]

/-- `([0-9]+[-][0-9]+[-][0-9]+)|([0-9]+[-][0-9]+)` — dates. -/
def exclude_rgx_15 : RE :=
  RE.alt (REcat [REplus REdigit, REchar '-', REplus REdigit, REchar '-', REplus REdigit])
         (REcat [REplus REdigit, REchar '-', REplus REdigit])

/-- The `exclude_rgx` pattern list of `build_token_match_rgx` (fifteen
elements: the source writes sixteen string literals but the eighth and
ninth are adjacent with no separating comma and therefore concatenate
into the single element `exclude_rgx_8`). -/
def exclude_rgx_list : List RE :=
  [exclude_rgx_1, exclude_rgx_2, exclude_rgx_3, exclude_rgx_4, exclude_rgx_5,
   exclude_rgx_6, exclude_rgx_7, exclude_rgx_8, exclude_rgx_9, exclude_rgx_10,
   exclude_rgx_11, exclude_rgx_12, exclude_rgx_13, exclude_rgx_14, exclude_rgx_15]

/-- `build_token_match_rgx` (tokenizer.py lines 950-988): returns the
compiled alternation of the include patterns and the compiled alternation
of the exclude patterns. -/
def build_token_match_rgx : RE × RE := (REjoin include_rgx_list, REjoin exclude_rgx_list)

/-- `token_match` (tokenizer.py lines 991-996):

    def token_match(s, include_rgx, exclude_rgx):
        if include_rgx.search(s):
            return False
        elif exclude_rgx.search(s):
            return True
        return False
-/
def token_match (s : String) (include_rgx exclude_rgx : RE) : Bool :=
  if reSearch include_rgx s then false
  else if reSearch exclude_rgx s then true
  else false

/-- The token-match classifier as configured by `ct_tokenizer` via
`functools.partial` (tokenizer.py lines 1012-1015). -/
def f_token_match (s : String) : Bool :=
  token_match s build_token_match_rgx.1 build_token_match_rgx.2

end JustTheFacts

namespace JustTheFacts

/-! ## The special-case exception table (tokenizer.py lines 17-947) -/

/-- A spaCy token-attribute record; the only attribute the tokenizer
module ever sets is `ORTH` (the verbatim text of the token). -/
structure SpacyAttr where
  ORTH : String
deriving DecidableEq

/-- Entries 1-186 (in source order) of the `special_cases` list of
tokenizer.py, transcribed verbatim; the list is split into blocks only
so that each block stays within the proof checker's recursion limits. -/
def special_cases_1 : List (String × List SpacyAttr) := [
  ("A.A.A.", [SpacyAttr.mk ("A.A.A.")]),
  ("A.A.A.S.", [SpacyAttr.mk ("A.A.A.S.")]),
  ("A.A.B.B.", [SpacyAttr.mk ("A.A.B.B.")]),
  ("A.A.C.P.", [SpacyAttr.mk ("A.A.C.P.")]),
  ("A.A.D.", [SpacyAttr.mk ("A.A.D.")]),
  ("A.A.D.P.", [SpacyAttr.mk ("A.A.D.P.")]),
  ("A.A.D.R.", [SpacyAttr.mk ("A.A.D.R.")]),
  ("A.A.D.S.", [SpacyAttr.mk ("A.A.D.S.")]),
  ("A.A.E.", [SpacyAttr.mk ("A.A.E.")]),
  ("A.A.F.P.", [SpacyAttr.mk ("A.A.F.P.")]),
  ("A.A.G.P.", [SpacyAttr.mk ("A.A.G.P.")]),
  ("A.A.I.", [SpacyAttr.mk ("A.A.I.")]),
  ("A.A.I.D.", [SpacyAttr.mk ("A.A.I.D.")]),
  ("A.A.I.N.", [SpacyAttr.mk ("A.A.I.N.")]),
  ("A.A.M.A.", [SpacyAttr.mk ("A.A.M.A.")]),
  ("A.A.M.C.", [SpacyAttr.mk ("A.A.M.C.")]),
  ("A.A.M.D.", [SpacyAttr.mk ("A.A.M.D.")]),
  ("A.A.M.R.L.", [SpacyAttr.mk ("A.A.M.R.L.")]),
  ("A.A.O.", [SpacyAttr.mk ("A.A.O.")]),
  ("A.A.O.P.", [SpacyAttr.mk ("A.A.O.P.")]),
  ("A.A.P.", [SpacyAttr.mk ("A.A.P.")]),
  ("A.A.P.A.", [SpacyAttr.mk ("A.A.P.A.")]),
  ("A.A.P.B.", [SpacyAttr.mk ("A.A.P.B.")]),
  ("A.A.P.M.R.", [SpacyAttr.mk ("A.A.P.M.R.")]),
  ("A.A.P.S.", [SpacyAttr.mk ("A.A.P.S.")]),
  ("A.B.E.P.P.", [SpacyAttr.mk ("A.B.E.P.P.")]),
  ("A.C.", [SpacyAttr.mk ("A.C.")]),
  ("A.C.A.", [SpacyAttr.mk ("A.C.A.")]),
  ("A.C.G.", [SpacyAttr.mk ("A.C.G.")]),
  ("A.C.H.A.", [SpacyAttr.mk ("A.C.H.A.")]),
  ("A.C.N.M.", [SpacyAttr.mk ("A.C.N.M.")]),
  ("A.C.O.G.", [SpacyAttr.mk ("A.C.O.G.")]),
  ("A.C.O.H.A.", [SpacyAttr.mk ("A.C.O.H.A.")]),
  ("A.C.O.O.G.", [SpacyAttr.mk ("A.C.O.O.G.")]),
  ("A.C.O.S.", [SpacyAttr.mk ("A.C.O.S.")]),
  ("A.C.P.", [SpacyAttr.mk ("A.C.P.")]),
  ("A.C.R.", [SpacyAttr.mk ("A.C.R.")]),
  ("A.C.S.", [SpacyAttr.mk ("A.C.S.")]),
  ("A.C.S.M.", [SpacyAttr.mk ("A.C.S.M.")]),
  ("A.D.", [SpacyAttr.mk ("A.D.")]),
  ("A.D.A.", [SpacyAttr.mk ("A.D.A.")]),
  ("A.E.", [SpacyAttr.mk ("A.E.")]),
  ("A.E.S.", [SpacyAttr.mk ("A.E.S.")]),
  ("A.G.A.", [SpacyAttr.mk ("A.G.A.")]),
  ("A.G.S.", [SpacyAttr.mk ("A.G.S.")]),
  ("A.H.A.", [SpacyAttr.mk ("A.H.A.")]),
  ("A.H.P.", [SpacyAttr.mk ("A.H.P.")]),
  ("A.H.S.", [SpacyAttr.mk ("A.H.S.")]),
  ("A.I.", [SpacyAttr.mk ("A.I.")]),
  ("A.I.C.", [SpacyAttr.mk ("A.I.C.")]),
  ("A.I.H.", [SpacyAttr.mk ("A.I.H.")]),
  ("A.I.H.A.", [SpacyAttr.mk ("A.I.H.A.")]),
  ("A.L.A.", [SpacyAttr.mk ("A.L.A.")]),
  ("A.L.R.O.S.", [SpacyAttr.mk ("A.L.R.O.S.")]),
  ("A.M.", [SpacyAttr.mk ("A.M.")]),
  ("A.M.A.", [SpacyAttr.mk ("A.M.A.")]),
  ("A.M.R.L.", [SpacyAttr.mk ("A.M.R.L.")]),
  ("A.M.S.", [SpacyAttr.mk ("A.M.S.")]),
  ("A.M.S.A.", [SpacyAttr.mk ("A.M.S.A.")]),
  ("A.M.W.A.", [SpacyAttr.mk ("A.M.W.A.")]),
  ("A.N.A.", [SpacyAttr.mk ("A.N.A.")]),
  ("A.O.A.", [SpacyAttr.mk ("A.O.A.")]),
  ("A.O.P.A.", [SpacyAttr.mk ("A.O.P.A.")]),
  ("A.O.S.", [SpacyAttr.mk ("A.O.S.")]),
  ("A.O.T.A.", [SpacyAttr.mk ("A.O.T.A.")]),
  ("A.P.A.", [SpacyAttr.mk ("A.P.A.")]),
  ("A.P.H.A.", [SpacyAttr.mk ("A.P.H.A.")]),
  ("A.P.M.", [SpacyAttr.mk ("A.P.M.")]),
  ("A.P.S.", [SpacyAttr.mk ("A.P.S.")]),
  ("A.P.T.A.", [SpacyAttr.mk ("A.P.T.A.")]),
  ("A.Ph.A.", [SpacyAttr.mk ("A.Ph.A.")]),
  ("A.R.C.", [SpacyAttr.mk ("A.R.C.")]),
  ("A.R.M.H.", [SpacyAttr.mk ("A.R.M.H.")]),
  ("A.R.N.M.D.", [SpacyAttr.mk ("A.R.N.M.D.")]),
  ("A.R.O.", [SpacyAttr.mk ("A.R.O.")]),
  ("A.R.R.S.", [SpacyAttr.mk ("A.R.R.S.")]),
  ("A.R.S.", [SpacyAttr.mk ("A.R.S.")]),
  ("A.R.T.", [SpacyAttr.mk ("A.R.T.")]),
  ("A.S.A.I.O.", [SpacyAttr.mk ("A.S.A.I.O.")]),
  ("A.S.B.", [SpacyAttr.mk ("A.S.B.")]),
  ("A.S.C.H.", [SpacyAttr.mk ("A.S.C.H.")]),
  ("A.S.C.I.", [SpacyAttr.mk ("A.S.C.I.")]),
  ("A.S.C.L.T.", [SpacyAttr.mk ("A.S.C.L.T.")]),
  ("A.S.C.P.", [SpacyAttr.mk ("A.S.C.P.")]),
  ("A.S.G.", [SpacyAttr.mk ("A.S.G.")]),
  ("A.S.H.", [SpacyAttr.mk ("A.S.H.")]),
  ("A.S.H.A.", [SpacyAttr.mk ("A.S.H.A.")]),
  ("A.S.H.I.", [SpacyAttr.mk ("A.S.H.I.")]),
  ("A.S.H.P.", [SpacyAttr.mk ("A.S.H.P.")]),
  ("A.S.I.I.", [SpacyAttr.mk ("A.S.I.I.")]),
  ("A.S.I.M.", [SpacyAttr.mk ("A.S.I.M.")]),
  ("A.S.M.", [SpacyAttr.mk ("A.S.M.")]),
  ("A.S.P.", [SpacyAttr.mk ("A.S.P.")]),
  ("A.S.R.T.", [SpacyAttr.mk ("A.S.R.T.")]),
  ("A.S.T.M.H.", [SpacyAttr.mk ("A.S.T.M.H.")]),
  ("A.U.", [SpacyAttr.mk ("A.U.")]),
  ("Act.", [SpacyAttr.mk ("Act.")]),
  ("Alta.", [SpacyAttr.mk ("Alta.")]),
  ("Anat.", [SpacyAttr.mk ("Anat.")]),
  ("Apr.", [SpacyAttr.mk ("Apr.")]),
  ("Aq.", [SpacyAttr.mk ("Aq.")]),
  ("As.M.", [SpacyAttr.mk ("As.M.")]),
  ("Au.D.", [SpacyAttr.mk ("Au.D.")]),
  ("Aug.", [SpacyAttr.mk ("Aug.")]),
  ("B.A.", [SpacyAttr.mk ("B.A.")]),
  ("B.B.B.", [SpacyAttr.mk ("B.B.B.")]),
  ("B.D.A.", [SpacyAttr.mk ("B.D.A.")]),
  ("B.D.S.", [SpacyAttr.mk ("B.D.S.")]),
  ("B.D.Sc.", [SpacyAttr.mk ("B.D.Sc.")]),
  ("B.F.A.", [SpacyAttr.mk ("B.F.A.")]),
  ("B.L.R.O.A.", [SpacyAttr.mk ("B.L.R.O.A.")]),
  ("B.M.", [SpacyAttr.mk ("B.M.")]),
  ("B.M.A.", [SpacyAttr.mk ("B.M.A.")]),
  ("B.M.S.", [SpacyAttr.mk ("B.M.S.")]),
  ("B.O.A.", [SpacyAttr.mk ("B.O.A.")]),
  ("B.P.", [SpacyAttr.mk ("B.P.")]),
  ("B.P.A.", [SpacyAttr.mk ("B.P.A.")]),
  ("B.P.H.", [SpacyAttr.mk ("B.P.H.")]),
  ("B.R.S.", [SpacyAttr.mk ("B.R.S.")]),
  ("B.S.", [SpacyAttr.mk ("B.S.")]),
  ("B.S.N.", [SpacyAttr.mk ("B.S.N.")]),
  ("B.T.U.", [SpacyAttr.mk ("B.T.U.")]),
  ("Bact.", [SpacyAttr.mk ("Bact.")]),
  ("Blvd.", [SpacyAttr.mk ("Blvd.")]),
  ("Bull.", [SpacyAttr.mk ("Bull.")]),
  ("C.", [SpacyAttr.mk ("C.")]),
  ("C.A.P.", [SpacyAttr.mk ("C.A.P.")]),
  ("C.D.", [SpacyAttr.mk ("C.D.")]),
  ("C.H.A.", [SpacyAttr.mk ("C.H.A.")]),
  ("C.I.H.", [SpacyAttr.mk ("C.I.H.")]),
  ("C.I.N.P.", [SpacyAttr.mk ("C.I.N.P.")]),
  ("C.I.O.M.S.", [SpacyAttr.mk ("C.I.O.M.S.")]),
  ("C.M.A.", [SpacyAttr.mk ("C.M.A.")]),
  ("C.N.A.", [SpacyAttr.mk ("C.N.A.")]),
  ("C.N.M.", [SpacyAttr.mk ("C.N.M.")]),
  ("C.O.A.", [SpacyAttr.mk ("C.O.A.")]),
  ("C.O.S.", [SpacyAttr.mk ("C.O.S.")]),
  ("C.P.H.", [SpacyAttr.mk ("C.P.H.")]),
  ("C.R.N.A.", [SpacyAttr.mk ("C.R.N.A.")]),
  ("C.R.N.P.", [SpacyAttr.mk ("C.R.N.P.")]),
  ("C.S.A.A.", [SpacyAttr.mk ("C.S.A.A.")]),
  ("C.S.G.B.I.", [SpacyAttr.mk ("C.S.G.B.I.")]),
  ("C.T.A.", [SpacyAttr.mk ("C.T.A.")]),
  ("Cel.", [SpacyAttr.mk ("Cel.")]),
  ("Ch.", [SpacyAttr.mk ("Ch.")]),
  ("Colo.", [SpacyAttr.mk ("Colo.")]),
  ("Conn.", [SpacyAttr.mk ("Conn.")]),
  ("Cx.", [SpacyAttr.mk ("Cx.")]),
  ("D.", [SpacyAttr.mk ("D.")]),
  ("D.A.", [SpacyAttr.mk ("D.A.")]),
  ("D.A.H.", [SpacyAttr.mk ("D.A.H.")]),
  ("D.C.", [SpacyAttr.mk ("D.C.")]),
  ("D.C.F.", [SpacyAttr.mk ("D.C.F.")]),
  ("D.C.H.", [SpacyAttr.mk ("D.C.H.")]),
  ("D.C.O.G.", [SpacyAttr.mk ("D.C.O.G.")]),
  ("D.D.S.", [SpacyAttr.mk ("D.D.S.")]),
  ("D.D.Sc.", [SpacyAttr.mk ("D.D.Sc.")]),
  ("D.Hg.", [SpacyAttr.mk ("D.Hg.")]),
  ("D.Hy.", [SpacyAttr.mk ("D.Hy.")]),
  ("D.J.", [SpacyAttr.mk ("D.J.")]),
  ("D.M.R.D.", [SpacyAttr.mk ("D.M.R.D.")]),
  ("D.M.R.T.", [SpacyAttr.mk ("D.M.R.T.")]),
  ("D.O.", [SpacyAttr.mk ("D.O.")]),
  ("D.O.A.", [SpacyAttr.mk ("D.O.A.")]),
  ("D.P.", [SpacyAttr.mk ("D.P.")]),
  ("D.P.H.", [SpacyAttr.mk ("D.P.H.")]),
  ("D.P.M.", [SpacyAttr.mk ("D.P.M.")]),
  ("D.S.C.", [SpacyAttr.mk ("D.S.C.")]),
  ("D.T.P.", [SpacyAttr.mk ("D.T.P.")]),
  ("D.W.", [SpacyAttr.mk ("D.W.")]),
  ("Dec.", [SpacyAttr.mk ("Dec.")]),
  ("Deg.", [SpacyAttr.mk ("Deg.")]),
  ("Det.", [SpacyAttr.mk ("Det.")]),
  ("Dn.", [SpacyAttr.mk ("Dn.")]),
  ("Dr.", [SpacyAttr.mk ("Dr.")]),
  ("Dr.P.H.", [SpacyAttr.mk ("Dr.P.H.")]),
  ("E.F.", [SpacyAttr.mk ("E.F.")]),
  ("E.M.S.", [SpacyAttr.mk ("E.M.S.")]),
  ("E.R.A.", [SpacyAttr.mk ("E.R.A.")]),
  ("Eur.", [SpacyAttr.mk ("Eur.")]),
  ("Extr.", [SpacyAttr.mk ("Extr.")]),
  ("F.", [SpacyAttr.mk ("F.")]),
  ("F.A.C.D.", [SpacyAttr.mk ("F.A.C.D.")]),
  ("F.A.C.O.G.", [SpacyAttr.mk ("F.A.C.O.G.")]),
  ("F.A.C.O.I.", [SpacyAttr.mk ("F.A.C.O.I.")]),
  ("F.A.C.P.", [SpacyAttr.mk ("F.A.C.P.")])
]

/-- Entries 187-372 (in source order) of the `special_cases` list of
tokenizer.py, transcribed verbatim; the list is split into blocks only
so that each block stays within the proof checker's recursion limits. -/
def special_cases_2 : List (String × List SpacyAttr) := [
  ("F.A.C.S.", [SpacyAttr.mk ("F.A.C.S.")]),
  ("F.A.C.S.M.", [SpacyAttr.mk ("F.A.C.S.M.")]),
  ("F.A.M.A.", [SpacyAttr.mk ("F.A.M.A.")]),
  ("F.A.P.H.A.", [SpacyAttr.mk ("F.A.P.H.A.")]),
  ("F.B.", [SpacyAttr.mk ("F.B.")]),
  ("F.I.C.D.", [SpacyAttr.mk ("F.I.C.D.")]),
  ("F.I.C.S.", [SpacyAttr.mk ("F.I.C.S.")]),
  ("F.L.T.", [SpacyAttr.mk ("F.L.T.")]),
  ("F.R.C.P.", [SpacyAttr.mk ("F.R.C.P.")]),
  ("F.R.C.P.C.", [SpacyAttr.mk ("F.R.C.P.C.")]),
  ("F.R.C.P.E.", [SpacyAttr.mk ("F.R.C.P.E.")]),
  ("F.R.C.P.I.", [SpacyAttr.mk ("F.R.C.P.I.")]),
  ("F.R.C.S.", [SpacyAttr.mk ("F.R.C.S.")]),
  ("F.R.C.S.E.", [SpacyAttr.mk ("F.R.C.S.E.")]),
  ("F.R.C.S.I.", [SpacyAttr.mk ("F.R.C.S.I.")]),
  ("F.R.C.V.S.", [SpacyAttr.mk ("F.R.C.V.S.")]),
  ("F.R.F.P.S.G.", [SpacyAttr.mk ("F.R.F.P.S.G.")]),
  ("F.U.O.", [SpacyAttr.mk ("F.U.O.")]),
  ("F.h.", [SpacyAttr.mk ("F.h.")]),
  ("F.p.", [SpacyAttr.mk ("F.p.")]),
  ("Feb.", [SpacyAttr.mk ("Feb.")]),
  ("Fri.", [SpacyAttr.mk ("Fri.")]),
  ("G.M.C.", [SpacyAttr.mk ("G.M.C.")]),
  ("Galv.", [SpacyAttr.mk ("Galv.")]),
  ("Gr.", [SpacyAttr.mk ("Gr.")]),
  ("Grad.", [SpacyAttr.mk ("Grad.")]),
  ("H.C.", [SpacyAttr.mk ("H.C.")]),
  ("H.d.", [SpacyAttr.mk ("H.d.")]),
  ("HOO.", [SpacyAttr.mk ("HOO.")]),
  ("I.A.G.P.", [SpacyAttr.mk ("I.A.G.P.")]),
  ("I.A.G.U.S.", [SpacyAttr.mk ("I.A.G.U.S.")]),
  ("I.A.M.M.", [SpacyAttr.mk ("I.A.M.M.")]),
  ("I.A.P.B.", [SpacyAttr.mk ("I.A.P.B.")]),
  ("I.A.P.P.", [SpacyAttr.mk ("I.A.P.P.")]),
  ("I.C.N.", [SpacyAttr.mk ("I.C.N.")]),
  ("I.C.R.P.", [SpacyAttr.mk ("I.C.R.P.")]),
  ("I.C.R.U.", [SpacyAttr.mk ("I.C.R.U.")]),
  ("I.C.S.", [SpacyAttr.mk ("I.C.S.")]),
  ("I.C.U.", [SpacyAttr.mk ("I.C.U.")]),
  ("I.E.", [SpacyAttr.mk ("I.E.")]),
  ("I.H.", [SpacyAttr.mk ("I.H.")]),
  ("I.L.A.", [SpacyAttr.mk ("I.L.A.")]),
  ("I.M.", [SpacyAttr.mk ("I.M.")]),
  ("I.M.A.", [SpacyAttr.mk ("I.M.A.")]),
  ("I.M.V.", [SpacyAttr.mk ("I.M.V.")]),
  ("I.N.A.", [SpacyAttr.mk ("I.N.A.")]),
  ("I.P.A.A.", [SpacyAttr.mk ("I.P.A.A.")]),
  ("I.Q.", [SpacyAttr.mk ("I.Q.")]),
  ("I.R.I.S.", [SpacyAttr.mk ("I.R.I.S.")]),
  ("I.S.A.", [SpacyAttr.mk ("I.S.A.")]),
  ("I.S.C.P.", [SpacyAttr.mk ("I.S.C.P.")]),
  ("I.S.G.E.", [SpacyAttr.mk ("I.S.G.E.")]),
  ("I.S.H.", [SpacyAttr.mk ("I.S.H.")]),
  ("I.S.M.", [SpacyAttr.mk ("I.S.M.")]),
  ("I.S.O.", [SpacyAttr.mk ("I.S.O.")]),
  ("I.S.U.", [SpacyAttr.mk ("I.S.U.")]),
  ("I.T.A.", [SpacyAttr.mk ("I.T.A.")]),
  ("I.U.", [SpacyAttr.mk ("I.U.")]),
  ("I.V.", [SpacyAttr.mk ("I.V.")]),
  ("Inpt.", [SpacyAttr.mk ("Inpt.")]),
  ("Jan.", [SpacyAttr.mk ("Jan.")]),
  ("Jap.", [SpacyAttr.mk ("Jap.")]),
  ("K.A.U.", [SpacyAttr.mk ("K.A.U.")]),
  ("K.U.B.", [SpacyAttr.mk ("K.U.B.")]),
  ("L.", [SpacyAttr.mk ("L.")]),
  ("L.A.O.", [SpacyAttr.mk ("L.A.O.")]),
  ("L.Ch.", [SpacyAttr.mk ("L.Ch.")]),
  ("L.D.A.", [SpacyAttr.mk ("L.D.A.")]),
  ("L.D.S.", [SpacyAttr.mk ("L.D.S.")]),
  ("L.K.Q.C.P.I.", [SpacyAttr.mk ("L.K.Q.C.P.I.")]),
  ("L.M.", [SpacyAttr.mk ("L.M.")]),
  ("L.M.R.C.P.", [SpacyAttr.mk ("L.M.R.C.P.")]),
  ("L.M.S.", [SpacyAttr.mk ("L.M.S.")]),
  ("L.M.S.S.A.", [SpacyAttr.mk ("L.M.S.S.A.")]),
  ("L.P.N.", [SpacyAttr.mk ("L.P.N.")]),
  ("L.R.C.P.", [SpacyAttr.mk ("L.R.C.P.")]),
  ("L.R.C.S.", [SpacyAttr.mk ("L.R.C.S.")]),
  ("L.R.C.S.E.", [SpacyAttr.mk ("L.R.C.S.E.")]),
  ("L.S.A.", [SpacyAttr.mk ("L.S.A.")]),
  ("L.V.H.", [SpacyAttr.mk ("L.V.H.")]),
  ("L.V.N.", [SpacyAttr.mk ("L.V.N.")]),
  ("La.", [SpacyAttr.mk ("La.")]),
  ("Lact.", [SpacyAttr.mk ("Lact.")]),
  ("Lic.", [SpacyAttr.mk ("Lic.")]),
  ("Linn.", [SpacyAttr.mk ("Linn.")]),
  ("Lond.", [SpacyAttr.mk ("Lond.")]),
  ("M.A.", [SpacyAttr.mk ("M.A.")]),
  ("M.A.B.", [SpacyAttr.mk ("M.A.B.")]),
  ("M.A.C.", [SpacyAttr.mk ("M.A.C.")]),
  ("M.B.", [SpacyAttr.mk ("M.B.")]),
  ("M.C.", [SpacyAttr.mk ("M.C.")]),
  ("M.C.S.P.", [SpacyAttr.mk ("M.C.S.P.")]),
  ("M.D.", [SpacyAttr.mk ("M.D.")]),
  ("M.D.A.", [SpacyAttr.mk ("M.D.A.")]),
  ("M.E.D.", [SpacyAttr.mk ("M.E.D.")]),
  ("M.I.", [SpacyAttr.mk ("M.I.")]),
  ("M.I.N.I.", [SpacyAttr.mk ("M.I.N.I.")]),
  ("M.I.T.", [SpacyAttr.mk ("M.I.T.")]),
  ("M.L.", [SpacyAttr.mk ("M.L.")]),
  ("M.O.", [SpacyAttr.mk ("M.O.")]),
  ("M.O.H.", [SpacyAttr.mk ("M.O.H.")]),
  ("M.O.R.C.", [SpacyAttr.mk ("M.O.R.C.")]),
  ("M.P.H.", [SpacyAttr.mk ("M.P.H.")]),
  ("M.P.U.", [SpacyAttr.mk ("M.P.U.")]),
  ("M.R.A.", [SpacyAttr.mk ("M.R.A.")]),
  ("M.R.A.C.P.", [SpacyAttr.mk ("M.R.A.C.P.")]),
  ("M.R.C.", [SpacyAttr.mk ("M.R.C.")]),
  ("M.R.C.P.", [SpacyAttr.mk ("M.R.C.P.")]),
  ("M.R.C.P.E.", [SpacyAttr.mk ("M.R.C.P.E.")]),
  ("M.R.C.P.I.", [SpacyAttr.mk ("M.R.C.P.I.")]),
  ("M.R.C.S.", [SpacyAttr.mk ("M.R.C.S.")]),
  ("M.R.C.S.E.", [SpacyAttr.mk ("M.R.C.S.E.")]),
  ("M.R.C.S.I.", [SpacyAttr.mk ("M.R.C.S.I.")]),
  ("M.R.C.V.S.", [SpacyAttr.mk ("M.R.C.V.S.")]),
  ("M.R.L.", [SpacyAttr.mk ("M.R.L.")]),
  ("M.S.", [SpacyAttr.mk ("M.S.")]),
  ("M.S.N.", [SpacyAttr.mk ("M.S.N.")]),
  ("M.T.", [SpacyAttr.mk ("M.T.")]),
  ("M.V.I.", [SpacyAttr.mk ("M.V.I.")]),
  ("M.u.", [SpacyAttr.mk ("M.u.")]),
  ("MSEd.", [SpacyAttr.mk ("MSEd.")]),
  ("Md.", [SpacyAttr.mk ("Md.")]),
  ("Merr.", [SpacyAttr.mk ("Merr.")]),
  ("Mich.", [SpacyAttr.mk ("Mich.")]),
  ("Mme.", [SpacyAttr.mk ("Mme.")]),
  ("Mr.", [SpacyAttr.mk ("Mr.")]),
  ("Mrs.", [SpacyAttr.mk ("Mrs.")]),
  ("Ms.", [SpacyAttr.mk ("Ms.")]),
  ("N.", [SpacyAttr.mk ("N.")]),
  ("N.A.P.N.E.S.", [SpacyAttr.mk ("N.A.P.N.E.S.")]),
  ("N.A.S.E.", [SpacyAttr.mk ("N.A.S.E.")]),
  ("N.B.S.", [SpacyAttr.mk ("N.B.S.")]),
  ("N.C.", [SpacyAttr.mk ("N.C.")]),
  ("N.C.M.H.", [SpacyAttr.mk ("N.C.M.H.")]),
  ("N.C.N.", [SpacyAttr.mk ("N.C.N.")]),
  ("N.D.A.", [SpacyAttr.mk ("N.D.A.")]),
  ("N.E.M.A.", [SpacyAttr.mk ("N.E.M.A.")]),
  ("N.F.L.P.N.", [SpacyAttr.mk ("N.F.L.P.N.")]),
  ("N.H.C.", [SpacyAttr.mk ("N.H.C.")]),
  ("N.H.I.", [SpacyAttr.mk ("N.H.I.")]),
  ("N.H.L.I.", [SpacyAttr.mk ("N.H.L.I.")]),
  ("N.H.M.R.C.", [SpacyAttr.mk ("N.H.M.R.C.")]),
  ("N.H.S.", [SpacyAttr.mk ("N.H.S.")]),
  ("N.L.N.", [SpacyAttr.mk ("N.L.N.")]),
  ("N.M.A.", [SpacyAttr.mk ("N.M.A.")]),
  ("N.M.S.S.", [SpacyAttr.mk ("N.M.S.S.")]),
  ("N.O.A.", [SpacyAttr.mk ("N.O.A.")]),
  ("N.O.P.H.N.", [SpacyAttr.mk ("N.O.P.H.N.")]),
  ("N.O.T.B.", [SpacyAttr.mk ("N.O.T.B.")]),
  ("N.P.A.", [SpacyAttr.mk ("N.P.A.")]),
  ("N.R.C.", [SpacyAttr.mk ("N.R.C.")]),
  ("N.S.A.", [SpacyAttr.mk ("N.S.A.")]),
  ("N.S.C.C.", [SpacyAttr.mk ("N.S.C.C.")]),
  ("N.S.N.A.", [SpacyAttr.mk ("N.S.N.A.")]),
  ("N.S.P.B.", [SpacyAttr.mk ("N.S.P.B.")]),
  ("N.T.A.", [SpacyAttr.mk ("N.T.A.")]),
  ("N.T.P.", [SpacyAttr.mk ("N.T.P.")]),
  ("N.Y.", [SpacyAttr.mk ("N.Y.")]),
  ("N.Y.D.", [SpacyAttr.mk ("N.Y.D.")]),
  ("Nev.", [SpacyAttr.mk ("Nev.")]),
  ("Nm.", [SpacyAttr.mk ("Nm.")]),
  ("Nov.", [SpacyAttr.mk ("Nov.")]),
  ("Num.", [SpacyAttr.mk ("Num.")]),
  ("O.D.", [SpacyAttr.mk ("O.D.")]),
  ("O.K.", [SpacyAttr.mk ("O.K.")]),
  ("O.R.", [SpacyAttr.mk ("O.R.")]),
  ("O.R.E.F.", [SpacyAttr.mk ("O.R.E.F.")]),
  ("O.R.S.", [SpacyAttr.mk ("O.R.S.")]),
  ("O.S.A.", [SpacyAttr.mk ("O.S.A.")]),
  ("O.S.U.K.", [SpacyAttr.mk ("O.S.U.K.")]),
  ("O.U.", [SpacyAttr.mk ("O.U.")]),
  ("Ob.", [SpacyAttr.mk ("Ob.")]),
  ("Oct.", [SpacyAttr.mk ("Oct.")]),
  ("Oe.", [SpacyAttr.mk ("Oe.")]),
  ("Ont.", [SpacyAttr.mk ("Ont.")]),
  ("Ore.", [SpacyAttr.mk ("Ore.")]),
  ("Outpt.", [SpacyAttr.mk ("Outpt.")]),
  ("P-barb.", [SpacyAttr.mk ("P-barb.")]),
  ("P.C.M.O.", [SpacyAttr.mk ("P.C.M.O.")]),
  ("P.H.L.S.", [SpacyAttr.mk ("P.H.L.S.")]),
  ("P.M.B.", [SpacyAttr.mk ("P.M.B.")]),
  ("P.M.E.", [SpacyAttr.mk ("P.M.E.")]),
  ("P.O.", [SpacyAttr.mk ("P.O.")]),
  ("P.P.D.", [SpacyAttr.mk ("P.P.D.")]),
  ("P.T.", [SpacyAttr.mk ("P.T.")]),
  ("P.T.U.", [SpacyAttr.mk ("P.T.U.")])
]

/-- Entries 373-558 (in source order) of the `special_cases` list of
tokenizer.py, transcribed verbatim; the list is split into blocks only
so that each block stays within the proof checker's recursion limits. -/
def special_cases_3 : List (String × List SpacyAttr) := [
  ("Ph.", [SpacyAttr.mk ("Ph.")]),
  ("Ph.B.", [SpacyAttr.mk ("Ph.B.")]),
  ("Ph.D.", [SpacyAttr.mk ("Ph.D.")]),
  ("Ph.G.", [SpacyAttr.mk ("Ph.G.")]),
  ("PhD.", [SpacyAttr.mk ("PhD.")]),
  ("Ps.", [SpacyAttr.mk ("Ps.")]),
  ("Pseud.", [SpacyAttr.mk ("Pseud.")]),
  ("R.A.M.C.", [SpacyAttr.mk ("R.A.M.C.")]),
  ("R.B.C.", [SpacyAttr.mk ("R.B.C.")]),
  ("R.C.M.", [SpacyAttr.mk ("R.C.M.")]),
  ("R.C.N.", [SpacyAttr.mk ("R.C.N.")]),
  ("R.C.O.G.", [SpacyAttr.mk ("R.C.O.G.")]),
  ("R.C.P.", [SpacyAttr.mk ("R.C.P.")]),
  ("R.C.S.", [SpacyAttr.mk ("R.C.S.")]),
  ("R.C.V.S.", [SpacyAttr.mk ("R.C.V.S.")]),
  ("R.D.", [SpacyAttr.mk ("R.D.")]),
  ("R.D.H.", [SpacyAttr.mk ("R.D.H.")]),
  ("R.E.G.", [SpacyAttr.mk ("R.E.G.")]),
  ("R.F.A.", [SpacyAttr.mk ("R.F.A.")]),
  ("R.F.P.", [SpacyAttr.mk ("R.F.P.")]),
  ("R.G.N.", [SpacyAttr.mk ("R.G.N.")]),
  ("R.H.", [SpacyAttr.mk ("R.H.")]),
  ("R.I.F.", [SpacyAttr.mk ("R.I.F.")]),
  ("R.M.N.", [SpacyAttr.mk ("R.M.N.")]),
  ("R.M.O.", [SpacyAttr.mk ("R.M.O.")]),
  ("R.M.P.", [SpacyAttr.mk ("R.M.P.")]),
  ("R.N.", [SpacyAttr.mk ("R.N.")]),
  ("R.N.M.S.", [SpacyAttr.mk ("R.N.M.S.")]),
  ("R.O.A.", [SpacyAttr.mk ("R.O.A.")]),
  ("R.O.P.", [SpacyAttr.mk ("R.O.P.")]),
  ("R.R.L.", [SpacyAttr.mk ("R.R.L.")]),
  ("R.S.A.", [SpacyAttr.mk ("R.S.A.")]),
  ("R.S.B.", [SpacyAttr.mk ("R.S.B.")]),
  ("R.S.C.N.", [SpacyAttr.mk ("R.S.C.N.")]),
  ("R.S.M.", [SpacyAttr.mk ("R.S.M.")]),
  ("R.S.N.A.", [SpacyAttr.mk ("R.S.N.A.")]),
  ("R.S.P.", [SpacyAttr.mk ("R.S.P.")]),
  ("R.S.T.", [SpacyAttr.mk ("R.S.T.")]),
  ("R.S.T.M.H.", [SpacyAttr.mk ("R.S.T.M.H.")]),
  ("R.T.", [SpacyAttr.mk ("R.T.")]),
  ("R.U.", [SpacyAttr.mk ("R.U.")]),
  ("R.V.H.", [SpacyAttr.mk ("R.V.H.")]),
  ("Ras.", [SpacyAttr.mk ("Ras.")]),
  ("Rb.", [SpacyAttr.mk ("Rb.")]),
  ("Rba.", [SpacyAttr.mk ("Rba.")]),
  ("Rect.", [SpacyAttr.mk ("Rect.")]),
  ("Ref.", [SpacyAttr.mk ("Ref.")]),
  ("S.", [SpacyAttr.mk ("S.")]),
  ("S.-G.", [SpacyAttr.mk ("S.-G.")]),
  ("S.A.", [SpacyAttr.mk ("S.A.")]),
  ("S.A.L.", [SpacyAttr.mk ("S.A.L.")]),
  ("S.C.", [SpacyAttr.mk ("S.C.")]),
  ("S.C.M.", [SpacyAttr.mk ("S.C.M.")]),
  ("S.D.", [SpacyAttr.mk ("S.D.")]),
  ("S.E.D.", [SpacyAttr.mk ("S.E.D.")]),
  ("S.E.E.", [SpacyAttr.mk ("S.E.E.")]),
  ("S.F.", [SpacyAttr.mk ("S.F.")]),
  ("S.G.O.", [SpacyAttr.mk ("S.G.O.")]),
  ("S.I.D.", [SpacyAttr.mk ("S.I.D.")]),
  ("S.L.P.", [SpacyAttr.mk ("S.L.P.")]),
  ("S.L.T.", [SpacyAttr.mk ("S.L.T.")]),
  ("S.M.O.", [SpacyAttr.mk ("S.M.O.")]),
  ("S.S.D.", [SpacyAttr.mk ("S.S.D.")]),
  ("S.T.S.", [SpacyAttr.mk ("S.T.S.")]),
  ("S.m.", [SpacyAttr.mk ("S.m.")]),
  ("Sacch.", [SpacyAttr.mk ("Sacch.")]),
  ("Salm.", [SpacyAttr.mk ("Salm.")]),
  ("Sc.D.", [SpacyAttr.mk ("Sc.D.")]),
  ("Sens.", [SpacyAttr.mk ("Sens.")]),
  ("Sept.", [SpacyAttr.mk ("Sept.")]),
  ("St.", [SpacyAttr.mk ("St.")]),
  ("Str.", [SpacyAttr.mk ("Str.")]),
  ("Strep.", [SpacyAttr.mk ("Strep.")]),
  ("Strept.", [SpacyAttr.mk ("Strept.")]),
  ("Subg.", [SpacyAttr.mk ("Subg.")]),
  ("T.A.T.", [SpacyAttr.mk ("T.A.T.")]),
  ("T.E.D.", [SpacyAttr.mk ("T.E.D.")]),
  ("T.P.N.", [SpacyAttr.mk ("T.P.N.")]),
  ("Tab.", [SpacyAttr.mk ("Tab.")]),
  ("Tal.", [SpacyAttr.mk ("Tal.")]),
  ("Tb.N.", [SpacyAttr.mk ("Tb.N.")]),
  ("Tb.Sp.", [SpacyAttr.mk ("Tb.Sp.")]),
  ("Tb.Th.", [SpacyAttr.mk ("Tb.Th.")]),
  ("Tue.", [SpacyAttr.mk ("Tue.")]),
  ("Tues.", [SpacyAttr.mk ("Tues.")]),
  ("U.K.", [SpacyAttr.mk ("U.K.")]),
  ("U.S.", [SpacyAttr.mk ("U.S.")]),
  ("U.S.A.", [SpacyAttr.mk ("U.S.A.")]),
  ("U.S.M.H.", [SpacyAttr.mk ("U.S.M.H.")]),
  ("U.S.P.", [SpacyAttr.mk ("U.S.P.")]),
  ("U.S.P.H.S.", [SpacyAttr.mk ("U.S.P.H.S.")]),
  ("U.V.", [SpacyAttr.mk ("U.V.")]),
  ("Ungt.", [SpacyAttr.mk ("Ungt.")]),
  ("V.A.", [SpacyAttr.mk ("V.A.")]),
  ("V.A.C.", [SpacyAttr.mk ("V.A.C.")]),
  ("V.D.", [SpacyAttr.mk ("V.D.")]),
  ("V.M.D.", [SpacyAttr.mk ("V.M.D.")]),
  ("V.R.", [SpacyAttr.mk ("V.R.")]),
  ("Va.", [SpacyAttr.mk ("Va.")]),
  ("Vit.", [SpacyAttr.mk ("Vit.")]),
  ("W.", [SpacyAttr.mk ("W.")]),
  ("W.R.", [SpacyAttr.mk ("W.R.")]),
  ("W.Va.", [SpacyAttr.mk ("W.Va.")]),
  ("Wgt.", [SpacyAttr.mk ("Wgt.")]),
  ("Wis.", [SpacyAttr.mk ("Wis.")]),
  ("a.c.", [SpacyAttr.mk ("a.c.")]),
  ("a.m.", [SpacyAttr.mk ("a.m.")]),
  ("abbr.", [SpacyAttr.mk ("abbr.")]),
  ("abdom.", [SpacyAttr.mk ("abdom.")]),
  ("adj.", [SpacyAttr.mk ("adj.")]),
  ("amp.", [SpacyAttr.mk ("amp.")]),
  ("ams.", [SpacyAttr.mk ("ams.")]),
  ("ant.", [SpacyAttr.mk ("ant.")]),
  ("aq.", [SpacyAttr.mk ("aq.")]),
  ("arb.", [SpacyAttr.mk ("arb.")]),
  ("arg.", [SpacyAttr.mk ("arg.")]),
  ("artif.", [SpacyAttr.mk ("artif.")]),
  ("asn.", [SpacyAttr.mk ("asn.")]),
  ("asst.", [SpacyAttr.mk ("asst.")]),
  ("avg.", [SpacyAttr.mk ("avg.")]),
  ("b.d.s.", [SpacyAttr.mk ("b.d.s.")]),
  ("b.i.d.", [SpacyAttr.mk ("b.i.d.")]),
  ("b.p.", [SpacyAttr.mk ("b.p.")]),
  ("bilat.", [SpacyAttr.mk ("bilat.")]),
  ("bk.", [SpacyAttr.mk ("bk.")]),
  ("bldg.", [SpacyAttr.mk ("bldg.")]),
  ("bol.", [SpacyAttr.mk ("bol.")]),
  ("bull.", [SpacyAttr.mk ("bull.")]),
  ("c.b.c.", [SpacyAttr.mk ("c.b.c.")]),
  ("c.p.", [SpacyAttr.mk ("c.p.")]),
  ("cal.", [SpacyAttr.mk ("cal.")]),
  ("cap.", [SpacyAttr.mk ("cap.")]),
  ("conc.", [SpacyAttr.mk ("conc.")]),
  ("concn.", [SpacyAttr.mk ("concn.")]),
  ("cont.", [SpacyAttr.mk ("cont.")]),
  ("cor.", [SpacyAttr.mk ("cor.")]),
  ("corr.", [SpacyAttr.mk ("corr.")]),
  ("cpd.", [SpacyAttr.mk ("cpd.")]),
  ("creat.", [SpacyAttr.mk ("creat.")]),
  ("crit.", [SpacyAttr.mk ("crit.")]),
  ("cu.mm.", [SpacyAttr.mk ("cu.mm.")]),
  ("cx.", [SpacyAttr.mk ("cx.")]),
  ("cyc.", [SpacyAttr.mk ("cyc.")]),
  ("cyl.", [SpacyAttr.mk ("cyl.")]),
  ("d.c.", [SpacyAttr.mk ("d.c.")]),
  ("d.p.", [SpacyAttr.mk ("d.p.")]),
  ("d.p.m.", [SpacyAttr.mk ("d.p.m.")]),
  ("d.v.", [SpacyAttr.mk ("d.v.")]),
  ("d.w.", [SpacyAttr.mk ("d.w.")]),
  ("decub.", [SpacyAttr.mk ("decub.")]),
  ("deg.", [SpacyAttr.mk ("deg.")]),
  ("det.", [SpacyAttr.mk ("det.")]),
  ("diam.", [SpacyAttr.mk ("diam.")]),
  ("dir.", [SpacyAttr.mk ("dir.")]),
  ("dn.", [SpacyAttr.mk ("dn.")]),
  ("doc.", [SpacyAttr.mk ("doc.")]),
  ("dp.", [SpacyAttr.mk ("dp.")]),
  ("dr.", [SpacyAttr.mk ("dr.")]),
  ("e.m.p.", [SpacyAttr.mk ("e.m.p.")]),
  ("elev.", [SpacyAttr.mk ("elev.")]),
  ("elix.", [SpacyAttr.mk ("elix.")]),
  ("em.", [SpacyAttr.mk ("em.")]),
  ("emuls.", [SpacyAttr.mk ("emuls.")]),
  ("endocrinol.", [SpacyAttr.mk ("endocrinol.")]),
  ("er.", [SpacyAttr.mk ("er.")]),
  ("exper.", [SpacyAttr.mk ("exper.")]),
  ("expt.", [SpacyAttr.mk ("expt.")]),
  ("f.b.", [SpacyAttr.mk ("f.b.")]),
  ("f.p.", [SpacyAttr.mk ("f.p.")]),
  ("fe.", [SpacyAttr.mk ("fe.")]),
  ("fig.", [SpacyAttr.mk ("fig.")]),
  ("fl.", [SpacyAttr.mk ("fl.")]),
  ("fld.", [SpacyAttr.mk ("fld.")]),
  ("ft.", [SpacyAttr.mk ("ft.")]),
  ("g-cal.", [SpacyAttr.mk ("g-cal.")]),
  ("gl.", [SpacyAttr.mk ("gl.")]),
  ("glu.", [SpacyAttr.mk ("glu.")]),
  ("gly.", [SpacyAttr.mk ("gly.")]),
  ("gm.", [SpacyAttr.mk ("gm.")]),
  ("gr.", [SpacyAttr.mk ("gr.")]),
  ("h.p.f.", [SpacyAttr.mk ("h.p.f.")]),
  ("h.s.", [SpacyAttr.mk ("h.s.")]),
  ("halluc.", [SpacyAttr.mk ("halluc.")]),
  ("hct.", [SpacyAttr.mk ("hct.")]),
  ("hun.", [SpacyAttr.mk ("hun.")]),
  ("hyp.", [SpacyAttr.mk ("hyp.")])
]

/-- Entries 559-744 (in source order) of the `special_cases` list of
tokenizer.py, transcribed verbatim; the list is split into blocks only
so that each block stays within the proof checker's recursion limits. -/
def special_cases_4 : List (String × List SpacyAttr) := [
  ("i.c.", [SpacyAttr.mk ("i.c.")]),
  ("i.d.", [SpacyAttr.mk ("i.d.")]),
  ("i.p.", [SpacyAttr.mk ("i.p.")]),
  ("i.r.", [SpacyAttr.mk ("i.r.")]),
  ("i.s.", [SpacyAttr.mk ("i.s.")]),
  ("i.th.", [SpacyAttr.mk ("i.th.")]),
  ("i.vag.", [SpacyAttr.mk ("i.vag.")]),
  ("ib.", [SpacyAttr.mk ("ib.")]),
  ("ibid.", [SpacyAttr.mk ("ibid.")]),
  ("inj.", [SpacyAttr.mk ("inj.")]),
  ("ino.", [SpacyAttr.mk ("ino.")]),
  ("instr.", [SpacyAttr.mk ("instr.")]),
  ("inv.", [SpacyAttr.mk ("inv.")]),
  ("irreg.", [SpacyAttr.mk ("irreg.")]),
  ("jour.", [SpacyAttr.mk ("jour.")]),
  ("jr.", [SpacyAttr.mk ("jr.")]),
  ("kc.", [SpacyAttr.mk ("kc.")]),
  ("kg.-cal.", [SpacyAttr.mk ("kg.-cal.")]),
  ("l.a.r.", [SpacyAttr.mk ("l.a.r.")]),
  ("l.p.n.", [SpacyAttr.mk ("l.p.n.")]),
  ("l.w.", [SpacyAttr.mk ("l.w.")]),
  ("lam.", [SpacyAttr.mk ("lam.")]),
  ("lar.", [SpacyAttr.mk ("lar.")]),
  ("lb.", [SpacyAttr.mk ("lb.")]),
  ("lim.", [SpacyAttr.mk ("lim.")]),
  ("lin.", [SpacyAttr.mk ("lin.")]),
  ("liq.", [SpacyAttr.mk ("liq.")]),
  ("lo.", [SpacyAttr.mk ("lo.")]),
  ("lot.", [SpacyAttr.mk ("lot.")]),
  ("lys.", [SpacyAttr.mk ("lys.")]),
  ("m.e.p.c.", [SpacyAttr.mk ("m.e.p.c.")]),
  ("mEq.", [SpacyAttr.mk ("mEq.")]),
  ("mac.", [SpacyAttr.mk ("mac.")]),
  ("mech.", [SpacyAttr.mk ("mech.")]),
  ("meg.", [SpacyAttr.mk ("meg.")]),
  ("meq.", [SpacyAttr.mk ("meq.")]),
  ("mev.", [SpacyAttr.mk ("mev.")]),
  ("mi.", [SpacyAttr.mk ("mi.")]),
  ("mil.", [SpacyAttr.mk ("mil.")]),
  ("min.", [SpacyAttr.mk ("min.")]),
  ("misc.", [SpacyAttr.mk ("misc.")]),
  ("mist.", [SpacyAttr.mk ("mist.")]),
  ("muc.", [SpacyAttr.mk ("muc.")]),
  ("n.", [SpacyAttr.mk ("n.")]),
  ("n.c.a.", [SpacyAttr.mk ("n.c.a.")]),
  ("n.m.", [SpacyAttr.mk ("n.m.")]),
  ("n.u.", [SpacyAttr.mk ("n.u.")]),
  ("nU.", [SpacyAttr.mk ("nU.")]),
  ("nat.", [SpacyAttr.mk ("nat.")]),
  ("neo.", [SpacyAttr.mk ("neo.")]),
  ("neu.", [SpacyAttr.mk ("neu.")]),
  ("nm.", [SpacyAttr.mk ("nm.")]),
  ("noct.", [SpacyAttr.mk ("noct.")]),
  ("o.d.", [SpacyAttr.mk ("o.d.")]),
  ("o.h.", [SpacyAttr.mk ("o.h.")]),
  ("o.m.", [SpacyAttr.mk ("o.m.")]),
  ("o.n.", [SpacyAttr.mk ("o.n.")]),
  ("o.s.", [SpacyAttr.mk ("o.s.")]),
  ("o.u.", [SpacyAttr.mk ("o.u.")]),
  ("oto.", [SpacyAttr.mk ("oto.")]),
  ("oz.", [SpacyAttr.mk ("oz.")]),
  ("p.a.", [SpacyAttr.mk ("p.a.")]),
  ("p.c.", [SpacyAttr.mk ("p.c.")]),
  ("p.e.", [SpacyAttr.mk ("p.e.")]),
  ("p.i.d.", [SpacyAttr.mk ("p.i.d.")]),
  ("p.m.", [SpacyAttr.mk ("p.m.")]),
  ("p.o.", [SpacyAttr.mk ("p.o.")]),
  ("p.p.d.", [SpacyAttr.mk ("p.p.d.")]),
  ("p.r.", [SpacyAttr.mk ("p.r.")]),
  ("p.r.n.", [SpacyAttr.mk ("p.r.n.")]),
  ("p.s.p.", [SpacyAttr.mk ("p.s.p.")]),
  ("p.t.", [SpacyAttr.mk ("p.t.")]),
  ("p.v.", [SpacyAttr.mk ("p.v.")]),
  ("paediatr.", [SpacyAttr.mk ("paediatr.")]),
  ("pediatr.", [SpacyAttr.mk ("pediatr.")]),
  ("peri.", [SpacyAttr.mk ("peri.")]),
  ("pkwy.", [SpacyAttr.mk ("pkwy.")]),
  ("post-part.", [SpacyAttr.mk ("post-part.")]),
  ("postpart.", [SpacyAttr.mk ("postpart.")]),
  ("ppg.", [SpacyAttr.mk ("ppg.")]),
  ("ppt.", [SpacyAttr.mk ("ppt.")]),
  ("prob.", [SpacyAttr.mk ("prob.")]),
  ("prof.", [SpacyAttr.mk ("prof.")]),
  ("ps.p.", [SpacyAttr.mk ("ps.p.")]),
  ("pulv.", [SpacyAttr.mk ("pulv.")]),
  ("pur.", [SpacyAttr.mk ("pur.")]),
  ("pv.", [SpacyAttr.mk ("pv.")]),
  ("q.", [SpacyAttr.mk ("q.")]),
  ("q.a.d.", [SpacyAttr.mk ("q.a.d.")]),
  ("q.a.m.", [SpacyAttr.mk ("q.a.m.")]),
  ("q.d.", [SpacyAttr.mk ("q.d.")]),
  ("q.d.s.", [SpacyAttr.mk ("q.d.s.")]),
  ("q.h.", [SpacyAttr.mk ("q.h.")]),
  ("q.h.s.", [SpacyAttr.mk ("q.h.s.")]),
  ("q.i.d.", [SpacyAttr.mk ("q.i.d.")]),
  ("q.o.d.", [SpacyAttr.mk ("q.o.d.")]),
  ("q.p.m.", [SpacyAttr.mk ("q.p.m.")]),
  ("q.s.", [SpacyAttr.mk ("q.s.")]),
  ("q.v.", [SpacyAttr.mk ("q.v.")]),
  ("r.b.c.", [SpacyAttr.mk ("r.b.c.")]),
  ("r.h.", [SpacyAttr.mk ("r.h.")]),
  ("r.m.s.d.", [SpacyAttr.mk ("r.m.s.d.")]),
  ("ra.", [SpacyAttr.mk ("ra.")]),
  ("ras.", [SpacyAttr.mk ("ras.")]),
  ("rec.", [SpacyAttr.mk ("rec.")]),
  ("rect.", [SpacyAttr.mk ("rect.")]),
  ("ref.", [SpacyAttr.mk ("ref.")]),
  ("reg.", [SpacyAttr.mk ("reg.")]),
  ("rehab.", [SpacyAttr.mk ("rehab.")]),
  ("rep.", [SpacyAttr.mk ("rep.")]),
  ("s.", [SpacyAttr.mk ("s.")]),
  ("s.c.", [SpacyAttr.mk ("s.c.")]),
  ("s.e.e.", [SpacyAttr.mk ("s.e.e.")]),
  ("s.l.", [SpacyAttr.mk ("s.l.")]),
  ("s.o.s.", [SpacyAttr.mk ("s.o.s.")]),
  ("s.s.", [SpacyAttr.mk ("s.s.")]),
  ("satd.", [SpacyAttr.mk ("satd.")]),
  ("scr.", [SpacyAttr.mk ("scr.")]),
  ("sect.", [SpacyAttr.mk ("sect.")]),
  ("sed.", [SpacyAttr.mk ("sed.")]),
  ("sens.", [SpacyAttr.mk ("sens.")]),
  ("sep.", [SpacyAttr.mk ("sep.")]),
  ("shldr.", [SpacyAttr.mk ("shldr.")]),
  ("sl.", [SpacyAttr.mk ("sl.")]),
  ("slt.", [SpacyAttr.mk ("slt.")]),
  ("somat.", [SpacyAttr.mk ("somat.")]),
  ("sp.", [SpacyAttr.mk ("sp.")]),
  ("sph.", [SpacyAttr.mk ("sph.")]),
  ("spp.", [SpacyAttr.mk ("spp.")]),
  ("sq.", [SpacyAttr.mk ("sq.")]),
  ("sr.", [SpacyAttr.mk ("sr.")]),
  ("ss.", [SpacyAttr.mk ("ss.")]),
  ("ssp.", [SpacyAttr.mk ("ssp.")]),
  ("subfam.", [SpacyAttr.mk ("subfam.")]),
  ("subg.", [SpacyAttr.mk ("subg.")]),
  ("subgen.", [SpacyAttr.mk ("subgen.")]),
  ("subj.", [SpacyAttr.mk ("subj.")]),
  ("subsect.", [SpacyAttr.mk ("subsect.")]),
  ("subsp.", [SpacyAttr.mk ("subsp.")]),
  ("supp.", [SpacyAttr.mk ("supp.")]),
  ("sv.", [SpacyAttr.mk ("sv.")]),
  ("syr.", [SpacyAttr.mk ("syr.")]),
  ("t.d.s.", [SpacyAttr.mk ("t.d.s.")]),
  ("t.i.d.", [SpacyAttr.mk ("t.i.d.")]),
  ("t.i.w.", [SpacyAttr.mk ("t.i.w.")]),
  ("t.p.n.", [SpacyAttr.mk ("t.p.n.")]),
  ("tab.", [SpacyAttr.mk ("tab.")]),
  ("tal.", [SpacyAttr.mk ("tal.")]),
  ("tbsp.", [SpacyAttr.mk ("tbsp.")]),
  ("tens.", [SpacyAttr.mk ("tens.")]),
  ("theor.", [SpacyAttr.mk ("theor.")]),
  ("thromb.", [SpacyAttr.mk ("thromb.")]),
  ("tinc.", [SpacyAttr.mk ("tinc.")]),
  ("tinct.", [SpacyAttr.mk ("tinct.")]),
  ("top.", [SpacyAttr.mk ("top.")]),
  ("u.d.", [SpacyAttr.mk ("u.d.")]),
  ("u.v.", [SpacyAttr.mk ("u.v.")]),
  ("ung.", [SpacyAttr.mk ("ung.")]),
  ("v.", [SpacyAttr.mk ("v.")]),
  ("v.r.", [SpacyAttr.mk ("v.r.")]),
  ("vac.", [SpacyAttr.mk ("vac.")]),
  ("vd.", [SpacyAttr.mk ("vd.")]),
  ("vit.", [SpacyAttr.mk ("vit.")]),
  ("viz.", [SpacyAttr.mk ("viz.")]),
  ("vol.", [SpacyAttr.mk ("vol.")]),
  ("w.", [SpacyAttr.mk ("w.")]),
  ("wgt.", [SpacyAttr.mk ("wgt.")]),
  ("wt.", [SpacyAttr.mk ("wt.")]),
  ("yd.", [SpacyAttr.mk ("yd.")]),
  ("yr.", [SpacyAttr.mk ("yr.")]),
  ("zool.", [SpacyAttr.mk ("zool.")]),
  ((aposStr ++ "s"), [SpacyAttr.mk (aposStr ++ "s")]),
  ("&amp;", [SpacyAttr.mk ("&amp;")]),
  ("&gt;", [SpacyAttr.mk ("&gt;")]),
  ("&lt;", [SpacyAttr.mk ("&lt;")]),
  ("+/-", [SpacyAttr.mk ("+/-")]),
  ("...", [SpacyAttr.mk ("...")]),
  ("0.25%", [SpacyAttr.mk ("0.25%")]),
  ("0.50%", [SpacyAttr.mk ("0.50%")]),
  ("0.65%", [SpacyAttr.mk ("0.65%")]),
  ("0.75%", [SpacyAttr.mk ("0.75%")]),
  ("00:00:00.0", [SpacyAttr.mk ("00:00:00.0")]),
  ("6h.p.r.n.", [SpacyAttr.mk ("6h.p.r.n.")]),
  ("A.", [SpacyAttr.mk ("A.")]),
  ("A.FIB", [SpacyAttr.mk ("A.FIB")]),
  ("A.Fib", [SpacyAttr.mk ("A.Fib")])
]

/-- Entries 745-929 (in source order) of the `special_cases` list of
tokenizer.py, transcribed verbatim; the list is split into blocks only
so that each block stays within the proof checker's recursion limits. -/
def special_cases_5 : List (String × List SpacyAttr) := [
  ("A.fib", [SpacyAttr.mk ("A.fib")]),
  ("a.fib", [SpacyAttr.mk ("a.fib")]),
  ("A/P", [SpacyAttr.mk ("A/P")]),
  ("AMOXICIL...", [SpacyAttr.mk ("AMOXICIL...")]),
  ("B.", [SpacyAttr.mk ("B.")]),
  ("B.I.", [SpacyAttr.mk ("B.I.")]),
  ("B.I.D.", [SpacyAttr.mk ("B.I.D.")]),
  ("Bilat.", [SpacyAttr.mk ("Bilat.")]),
  ("c.b.i.d.", [SpacyAttr.mk ("c.b.i.d.")]),
  ("c.q.1h.p.r.n.", [SpacyAttr.mk ("c.q.1h.p.r.n.")]),
  ("C.", [SpacyAttr.mk ("C.")]),
  ("C.Diff", [SpacyAttr.mk ("C.Diff")]),
  ("C.diff", [SpacyAttr.mk ("C.diff")]),
  ("C.difficile", [SpacyAttr.mk ("C.difficile")]),
  ("C/W", [SpacyAttr.mk ("C/W")]),
  ("D.", [SpacyAttr.mk ("D.")]),
  ("D/C", [SpacyAttr.mk ("D/C")]),
  (("D/C" ++ aposStr ++ "D"), [SpacyAttr.mk ("D/C" ++ aposStr ++ "D")]),
  (("D/c" ++ aposStr ++ "d"), [SpacyAttr.mk ("D/c" ++ aposStr ++ "d")]),
  ("D/w", [SpacyAttr.mk ("D/w")]),
  ("DR.", [SpacyAttr.mk ("DR.")]),
  ("E.", [SpacyAttr.mk ("E.")]),
  ("E.C.", [SpacyAttr.mk ("E.C.")]),
  ("E.C.", [SpacyAttr.mk ("E.C.")]),
  ("E.C.", [SpacyAttr.mk ("E.C.")]),
  ("E.COLI", [SpacyAttr.mk ("E.COLI")]),
  ("E.Coli", [SpacyAttr.mk ("E.Coli")]),
  ("E.G.", [SpacyAttr.mk ("E.G.")]),
  ("E.coli", [SpacyAttr.mk ("E.coli")]),
  ("F.", [SpacyAttr.mk ("F.")]),
  ("F/U", [SpacyAttr.mk ("F/U")]),
  ("G.", [SpacyAttr.mk ("G.")]),
  ("H.", [SpacyAttr.mk ("H.")]),
  ("H/O", [SpacyAttr.mk ("H/O")]),
  ("I.", [SpacyAttr.mk ("I.")]),
  ("I.E.", [SpacyAttr.mk ("I.E.")]),
  ("IMMED.", [SpacyAttr.mk ("IMMED.")]),
  ("J.", [SpacyAttr.mk ("J.")]),
  ("Jr.", [SpacyAttr.mk ("Jr.")]),
  ("K.", [SpacyAttr.mk ("K.")]),
  ("L.", [SpacyAttr.mk ("L.")]),
  ("M.", [SpacyAttr.mk ("M.")]),
  ("M.B.B.S.", [SpacyAttr.mk ("M.B.B.S.")]),
  ("M.S.C.", [SpacyAttr.mk ("M.S.C.")]),
  ("Misc.", [SpacyAttr.mk ("Misc.")]),
  ("Mr.", [SpacyAttr.mk ("Mr.")]),
  ("Mrs.", [SpacyAttr.mk ("Mrs.")]),
  ("Ms.", [SpacyAttr.mk ("Ms.")]),
  ("N.", [SpacyAttr.mk ("N.")]),
  ("No.1", [SpacyAttr.mk ("No.1")]),
  ("No.2", [SpacyAttr.mk ("No.2")]),
  ("O.", [SpacyAttr.mk ("O.")]),
  ("P.", [SpacyAttr.mk ("P.")]),
  ("P.A.", [SpacyAttr.mk ("P.A.")]),
  ("P.O.", [SpacyAttr.mk ("P.O.")]),
  ("PH.D.", [SpacyAttr.mk ("PH.D.")]),
  ("PULM.", [SpacyAttr.mk ("PULM.")]),
  ("Pt.", [SpacyAttr.mk ("Pt.")]),
  ("Q.", [SpacyAttr.mk ("Q.")]),
  ("R.", [SpacyAttr.mk ("R.")]),
  (("R/o" ++ aposStr ++ "d"), [SpacyAttr.mk ("R/o" ++ aposStr ++ "d")]),
  ("REL.", [SpacyAttr.mk ("REL.")]),
  ("RESP.", [SpacyAttr.mk ("RESP.")]),
  ("Rd.", [SpacyAttr.mk ("Rd.")]),
  ("S.", [SpacyAttr.mk ("S.")]),
  ("S.O.A.R.", [SpacyAttr.mk ("S.O.A.R.")]),
  ("SUSP.", [SpacyAttr.mk ("SUSP.")]),
  ("SUST.", [SpacyAttr.mk ("SUST.")]),
  ("Ste.", [SpacyAttr.mk ("Ste.")]),
  ("T.", [SpacyAttr.mk ("T.")]),
  ("TEMP.", [SpacyAttr.mk ("TEMP.")]),
  ("TERM", [SpacyAttr.mk ("TERM")]),
  ("Tel.", [SpacyAttr.mk ("Tel.")]),
  ("U.", [SpacyAttr.mk ("U.")]),
  ("U/S", [SpacyAttr.mk ("U/S")]),
  ("V.", [SpacyAttr.mk ("V.")]),
  ("VIT.", [SpacyAttr.mk ("VIT.")]),
  ("X.", [SpacyAttr.mk ("X.")]),
  ("Y.", [SpacyAttr.mk ("Y.")]),
  ("Z.", [SpacyAttr.mk ("Z.")]),
  ("a.", [SpacyAttr.mk ("a.")]),
  ("a.fib", [SpacyAttr.mk ("a.fib")]),
  ("b.", [SpacyAttr.mk ("b.")]),
  ("bilat.", [SpacyAttr.mk ("bilat.")]),
  ("c.", [SpacyAttr.mk ("c.")]),
  ("c/o", [SpacyAttr.mk ("c/o")]),
  ("c/w", [SpacyAttr.mk ("c/w")]),
  ("d/c", [SpacyAttr.mk ("d/c")]),
  (("d/c" ++ aposStr ++ "d"), [SpacyAttr.mk ("d/c" ++ aposStr ++ "d")]),
  (("d/c" ++ aposStr ++ "d"), [SpacyAttr.mk ("d/c" ++ aposStr ++ "d")]),
  (("d/c" ++ aposStr ++ "ed"), [SpacyAttr.mk ("d/c" ++ aposStr ++ "ed")]),
  ("d/ced", [SpacyAttr.mk ("d/ced")]),
  ("d/t", [SpacyAttr.mk ("d/t")]),
  ("dc.", [SpacyAttr.mk ("dc.")]),
  ("e.", [SpacyAttr.mk ("e.")]),
  ("e.coli", [SpacyAttr.mk ("e.coli")]),
  ("e.g.", [SpacyAttr.mk ("e.g.")]),
  ("etc.", [SpacyAttr.mk ("etc.")]),
  ("f/u", [SpacyAttr.mk ("f/u")]),
  ("follow-up", [SpacyAttr.mk ("follow-up")]),
  ("h.", [SpacyAttr.mk ("h.")]),
  ("h/o", [SpacyAttr.mk ("h/o")]),
  ("i.e.", [SpacyAttr.mk ("i.e.")]),
  ("incr.", [SpacyAttr.mk ("incr.")]),
  ("l.", [SpacyAttr.mk ("l.")]),
  ("lbs.", [SpacyAttr.mk ("lbs.")]),
  ("misc.", [SpacyAttr.mk ("misc.")]),
  ("mr.", [SpacyAttr.mk ("mr.")]),
  ("mrs.", [SpacyAttr.mk ("mrs.")]),
  ("ms.", [SpacyAttr.mk ("ms.")]),
  ("n.p.o.", [SpacyAttr.mk ("n.p.o.")]),
  ("p.g.", [SpacyAttr.mk ("p.g.")]),
  ("p.i.q.4h", [SpacyAttr.mk ("p.i.q.4h")]),
  ("p.o.q.4h", [SpacyAttr.mk ("p.o.q.4h")]),
  ("p.o.", [SpacyAttr.mk ("p.o.")]),
  ("p.o./p.g.", [SpacyAttr.mk ("p.o./p.g.")]),
  ("p.o.b.i.d.", [SpacyAttr.mk ("p.o.b.i.d.")]),
  ("p.o.q.", [SpacyAttr.mk ("p.o.q.")]),
  ("p.o.q.a.m.", [SpacyAttr.mk ("p.o.q.a.m.")]),
  ("p.o.q.d.", [SpacyAttr.mk ("p.o.q.d.")]),
  ("p.o.q.d", [SpacyAttr.mk ("p.o.q.d")]),
  ("p.o.q.p.m.", [SpacyAttr.mk ("p.o.q.p.m.")]),
  ("pt.", [SpacyAttr.mk ("pt.")]),
  ("pulm.", [SpacyAttr.mk ("pulm.")]),
  ("q.", [SpacyAttr.mk ("q.")]),
  ("q.10h.", [SpacyAttr.mk ("q.10h.")]),
  ("q.11h.", [SpacyAttr.mk ("q.11h.")]),
  ("q.12h.", [SpacyAttr.mk ("q.12h.")]),
  ("q.13h.", [SpacyAttr.mk ("q.13h.")]),
  ("q.14h.", [SpacyAttr.mk ("q.14h.")]),
  ("q.15h.", [SpacyAttr.mk ("q.15h.")]),
  ("q.16h.", [SpacyAttr.mk ("q.16h.")]),
  ("q.1h.", [SpacyAttr.mk ("q.1h.")]),
  ("q.24", [SpacyAttr.mk ("q.24")]),
  ("q.24h", [SpacyAttr.mk ("q.24h")]),
  ("q.24h.", [SpacyAttr.mk ("q.24h.")]),
  ("q.2h.", [SpacyAttr.mk ("q.2h.")]),
  ("q.3h.", [SpacyAttr.mk ("q.3h.")]),
  ("q.4 h.", [SpacyAttr.mk ("q.4 h.")]),
  ("q.4-6h", [SpacyAttr.mk ("q.4-6h")]),
  ("q.48", [SpacyAttr.mk ("q.48")]),
  ("q.4h.", [SpacyAttr.mk ("q.4h.")]),
  ("q.4.h.", [SpacyAttr.mk ("q.4.h.")]),
  ("q.5h.", [SpacyAttr.mk ("q.5h.")]),
  ("q.5.h.", [SpacyAttr.mk ("q.5.h.")]),
  ("q.6h.", [SpacyAttr.mk ("q.6h.")]),
  ("q.6.h.", [SpacyAttr.mk ("q.6.h.")]),
  ("q.7h.", [SpacyAttr.mk ("q.7h.")]),
  ("q.7.h.", [SpacyAttr.mk ("q.7.h.")]),
  ("q.8h.", [SpacyAttr.mk ("q.8h.")]),
  ("q.8.h.", [SpacyAttr.mk ("q.8.h.")]),
  ("q.9h.", [SpacyAttr.mk ("q.9h.")]),
  ("q.9.h.", [SpacyAttr.mk ("q.9.h.")]),
  ("q.a.c.", [SpacyAttr.mk ("q.a.c.")]),
  ("q.a.m.", [SpacyAttr.mk ("q.a.m.")]),
  ("q.d.", [SpacyAttr.mk ("q.d.")]),
  ("q.day", [SpacyAttr.mk ("q.day")]),
  ("q.eight", [SpacyAttr.mk ("q.eight")]),
  ("q.five", [SpacyAttr.mk ("q.five")]),
  ("q.four", [SpacyAttr.mk ("q.four")]),
  ("q.nine", [SpacyAttr.mk ("q.nine")]),
  ("q.one", [SpacyAttr.mk ("q.one")]),
  ("q.p.m.", [SpacyAttr.mk ("q.p.m.")]),
  ("q.seven", [SpacyAttr.mk ("q.seven")]),
  ("q.six", [SpacyAttr.mk ("q.six")]),
  ("q.three", [SpacyAttr.mk ("q.three")]),
  ("q.two", [SpacyAttr.mk ("q.two")]),
  ("r.", [SpacyAttr.mk ("r.")]),
  ("r/o", [SpacyAttr.mk ("r/o")]),
  ("r/r/w", [SpacyAttr.mk ("r/r/w")]),
  ("resp.", [SpacyAttr.mk ("resp.")]),
  ("s.c.b.i.d.", [SpacyAttr.mk ("s.c.b.i.d.")]),
  ("s.c.q.1h.p.r.n", [SpacyAttr.mk ("s.c.q.1h.p.r.n")]),
  ("s/p", [SpacyAttr.mk ("s/p")]),
  ("S/P", [SpacyAttr.mk ("S/P")]),
  ("sat.", [SpacyAttr.mk ("sat.")]),
  ("tel.", [SpacyAttr.mk ("tel.")]),
  ("temp.", [SpacyAttr.mk ("temp.")]),
  ("vs.", [SpacyAttr.mk ("vs.")]),
  ("w/", [SpacyAttr.mk ("w/")]),
  ("W/O", [SpacyAttr.mk ("W/O")]),
  ("x-ray", [SpacyAttr.mk ("x-ray")]),
  ("y/o", [SpacyAttr.mk ("y/o")]),
  ("y.o", [SpacyAttr.mk ("y.o")]),
  ("y.o.", [SpacyAttr.mk ("y.o.")])
]

/-- `special_cases` (tokenizer.py lines 17-947): the static list of
(term, attribute-list) exception rules, transcribed verbatim from the
Python source in source order (929 entries; `aposStr` denotes the
apostrophe).  It is the concatenation, in order, of the five blocks
above. -/
def special_cases : List (String × List SpacyAttr) :=
  special_cases_1 ++ special_cases_2 ++ special_cases_3 ++ special_cases_4 ++ special_cases_5

end JustTheFacts

namespace JustTheFacts

/-! ## Loading the exception table (`ct_tokenizer`, tokenizer.py lines 1025-1026)

```
for term, attrib in special_cases:
    tokenizer.add_special_case(term, attrib)
```
-/

/-- The tokenizer's exception table: an association of terms to attribute
lists, in insertion order. -/
abbrev ExceptionTable : Type := List (String × List SpacyAttr)

/-- spaCy's `Tokenizer.add_special_case`, modelled as a mapping update on
the exception table: the external library stores the rule under the key
`term`, overwriting any rule previously stored for the same key and
otherwise appending a new one ("loaded once into the external tokenizer's
exception table", spec §3). -/
def add_special_case (tbl : ExceptionTable) (term : String) (attrib : List SpacyAttr) :
    ExceptionTable :=
  if tbl.any (fun p => p.1 == term) then
    tbl.map (fun p => if p.1 == term then (term, attrib) else p)
  else
    tbl ++ [(term, attrib)]

/-- The loading loop of `ct_tokenizer`, instrumented with the sequence of
`add_special_case` calls it performs: the first component is the exception
table built so far, the second the list of (term, attrib) arguments passed
to `add_special_case`, in call order. -/
def ct_tokenizer_load : ExceptionTable × List (String × List SpacyAttr) :=
  special_cases.foldl
    (fun acc p => (add_special_case acc.1 p.1 p.2, acc.2 ++ [p])) (([] : List (String × List SpacyAttr)), [])

/-- The exception table after `ct_tokenizer`'s loading loop. -/
def ct_tokenizer_table : ExceptionTable :=
  special_cases.foldl (fun tbl p => add_special_case tbl p.1 p.2) ([] : List (String × List SpacyAttr))

/-- Lookup in the exception table (first entry with the given key; by
`exceptionTable_functional`-style facts the table never holds two entries
with one key, so this is the mapping the table denotes). -/
def tableLookup (tbl : ExceptionTable) (k : String) : Option (List SpacyAttr) :=
  tbl.lookup k

end JustTheFacts

namespace JustTheFacts

/-! ## The fine-tuning and evaluation driver (`tune_eval.py`)

`main` (lines 102-456) is modelled by the trace of its stages and by the
state its `eval_callback` closure (lines 340-394) mutates.  Accuracies
(floating-point fractions produced by `lm_eval`) are modelled as rationals:
the driver only stores and compares them.  The file system is modelled by
the list of `model_epoch_<i>` directories present and by which epoch's
checkpoint the `best_model` directory currently holds.  The model follows
the rank-0 branch of the guards `if not train_config.enable_fsdp or
rank == 0` (on other ranks the file operations are skipped). -/

/-- One entry of `all_results` (tune_eval.py lines 363-367): the code
stores `epoch + 1` and the two accuracies. -/
structure EpochResult where
  epoch : Nat
  clinical_knowledge_acc : ℚ
  college_medicine_acc : ℚ
deriving DecidableEq

/-- The state read and written by `eval_callback`: the `nonlocal`
variables `best_accuracy`, `best_epoch`, `all_results` (lines 332-335)
plus the modelled file system. -/
structure TuneState where
  best_accuracy : ℚ
  best_epoch : ℤ
  all_results : List EpochResult
  epoch_dirs : List Nat
  best_model : Option Nat
deriving DecidableEq

/-- The state just before the first epoch (tune_eval.py lines 332-335):
`best_accuracy = 0`, `best_epoch = -1`, `all_results = []`; no checkpoint
directory exists yet. -/
def initState : TuneState :=
  { best_accuracy := 0, best_epoch := -1, all_results := [], epoch_dirs := [],
    best_model := none }

/-- `eval_callback(epoch, model, train_config, optimizer, rank)`
(tune_eval.py lines 340-394), given the per-epoch accuracy oracle `accs`
(first component: `mmlu_clinical_knowledge` accuracy; second:
`mmlu_college_medicine`): save the epoch checkpoint, evaluate, append the
results, and either promote the checkpoint to `best_model` (when the
clinical-knowledge accuracy strictly exceeds `best_accuracy`) or delete
it. -/
def eval_callback (accs : Nat → ℚ × ℚ) (epoch : Nat) (s : TuneState) : TuneState :=
  let saved : TuneState := { s with epoch_dirs := s.epoch_dirs ++ [epoch] }
  let ck : ℚ := (accs epoch).1
  let cm : ℚ := (accs epoch).2
  let logged : TuneState :=
    { saved with all_results := saved.all_results ++
        [{ epoch := epoch + 1, clinical_knowledge_acc := ck, college_medicine_acc := cm }] }
  if logged.best_accuracy < ck then
    { logged with
        best_accuracy := ck
        best_epoch := (epoch : ℤ)
        best_model := some epoch
        epoch_dirs := logged.epoch_dirs.erase epoch }
  else
    { logged with epoch_dirs := logged.epoch_dirs.erase epoch }

/-- The driver state after the library `train` function has invoked
`eval_callback` for epochs `0, 1, ..., n-1` in order. -/
def run_epochs (accs : Nat → ℚ × ℚ) : Nat → TuneState
  | 0 => initState
  | n + 1 => eval_callback accs n (run_epochs accs n)

/-- Python list indexing as used by `all_results[best_epoch]`
(tune_eval.py line 448): non-negative indices from the front, negative
indices from the back. -/
def pyIdx (l : List EpochResult) (i : ℤ) : Option EpochResult :=
  if 0 ≤ i then l.get? i.toNat
  else if (-i).toNat ≤ l.length then l.get? (l.length - (-i).toNat)
  else none

/-- The final block of `main` (tune_eval.py lines 430-450): on rank 0 it
opens `<output_dir>/best_model/performance_results.txt` for writing and
writes one block per epoch from `all_results` followed by a best-performance
block holding `best_epoch + 1`, `best_accuracy` and
`all_results[best_epoch].college_medicine_acc`.  When the `best_model`
directory does not exist (no epoch was ever promoted) the `open` raises
`FileNotFoundError` and no file is produced, so the run does not complete;
this is modelled by `none`. -/
def performance_results (s : TuneState) : Option (List EpochResult × (ℤ × ℚ × Option ℚ)) :=
  match s.best_model with
  | none => none
  | some _ =>
      some (s.all_results,
            (s.best_epoch + 1, s.best_accuracy,
             (pyIdx s.all_results s.best_epoch).map (fun r => r.college_medicine_acc)))

/-- The observable stages of `main` (tune_eval.py lines 102-456), at the
granularity of the specification sentence "load model → load tokenizer →
wrap with distributed strategy → build data loaders → build
optimizer/scheduler → call a library `train` function → evaluate →
checkpoint best model". -/
inductive Event where
  | load_model : Event
  | load_tokenizer : Event
  | wrap_fsdp : Event
  | build_dataloaders : Event
  | build_optimizer : Event
  | train_begin : Event
  | save_checkpoint (epoch : Nat) : Event
  | evaluate (epoch : Nat) : Event
  | promote_best (epoch : Nat) : Event
  | delete_checkpoint (epoch : Nat) : Event
  | train_end : Event
  | write_performance : Event
deriving DecidableEq

/-- The events of one `eval_callback` invocation (tune_eval.py lines
340-394), in source order: save the epoch checkpoint (line 344-349), run
`evaluate_model` (line 356), then either rename the checkpoint to
`best_model` (lines 370-379) or delete it (lines 380-383). -/
def callback_events (accs : Nat → ℚ × ℚ) (best : ℚ) (epoch : Nat) : List Event :=
  [Event.save_checkpoint epoch, Event.evaluate epoch] ++
  (if best < (accs epoch).1 then [Event.promote_best epoch] else [Event.delete_checkpoint epoch])

/-- The events produced inside the library `train` call, which invokes
`eval_callback` once per epoch in epoch order; the running
`best_accuracy` threaded through is the one of `run_epochs`. -/
def epochs_events (accs : Nat → ℚ × ℚ) : Nat → List Event
  | 0 => []
  | n + 1 => epochs_events accs n ++ callback_events accs (run_epochs accs n).best_accuracy n

/-- The stage trace of `main` (tune_eval.py lines 102-456): load the
pre-trained model (lines 133-165), load the tokenizer (line 168), wrap the
model with FSDP when `enable_fsdp` is set (lines 207-234), build the data
loaders (lines 241-290), build the optimizer and scheduler (lines
293-308), call the library `train` function with `eval_callback` (lines
413-428), and finally write the performance file (lines 430-450). -/
def main_trace (enable_fsdp : Bool) (accs : Nat → ℚ × ℚ) (nepochs : Nat) : List Event :=
  [Event.load_model, Event.load_tokenizer] ++
  (if enable_fsdp then [Event.wrap_fsdp] else []) ++
  [Event.build_dataloaders, Event.build_optimizer, Event.train_begin] ++
  epochs_events accs nepochs ++
  [Event.train_end, Event.write_performance]

/-- The token-match classifier runs inside the overall program; this
wrapper makes the (absence of) interaction with the fine-tuning module's
state explicit: the classifier is given the fine-tuning state and returns
its verdict together with the state it leaves behind.  The source
`token_match` (tokenizer.py lines 991-996) reads only its string argument
and the two compiled patterns, so the state is returned untouched. -/
def token_match_in_run (st : TuneState) (s : String) : Bool × TuneState :=
  (f_token_match s, st)

end JustTheFacts

namespace JustTheFacts

/-! ## Facts about the special-case table -/

set_option maxRecDepth 4000

theorem special_cases_1_orth : ∀ p ∈ special_cases_1, p.2 = [SpacyAttr.mk p.1] := by decide

theorem special_cases_2_orth : ∀ p ∈ special_cases_2, p.2 = [SpacyAttr.mk p.1] := by decide

theorem special_cases_3_orth : ∀ p ∈ special_cases_3, p.2 = [SpacyAttr.mk p.1] := by decide

theorem special_cases_4_orth : ∀ p ∈ special_cases_4, p.2 = [SpacyAttr.mk p.1] := by decide

theorem special_cases_5_orth : ∀ p ∈ special_cases_5, p.2 = [SpacyAttr.mk p.1] := by decide

/-- Every entry of `special_cases` carries exactly one attribute record,
whose `ORTH` is the entry's own term. -/
theorem special_cases_orth : ∀ p ∈ special_cases, p.2 = [SpacyAttr.mk p.1] := by
  intro p hp
  simp only [special_cases, List.mem_append] at hp
  rcases hp with ((((h | h) | h) | h) | h)
  · exact special_cases_1_orth p h
  · exact special_cases_2_orth p h
  · exact special_cases_3_orth p h
  · exact special_cases_4_orth p h
  · exact special_cases_5_orth p h

theorem special_cases_1_length : special_cases_1.length = 186 := by decide

theorem special_cases_2_length : special_cases_2.length = 186 := by decide

theorem special_cases_3_length : special_cases_3.length = 186 := by decide

theorem special_cases_4_length : special_cases_4.length = 186 := by decide

theorem special_cases_5_length : special_cases_5.length = 185 := by decide

theorem special_cases_length : special_cases.length = 929 := by
  simp [special_cases, List.length_append, special_cases_1_length, special_cases_2_length,
        special_cases_3_length, special_cases_4_length, special_cases_5_length]

/-- Folding a list while recording each element visited records exactly
the list, in order. -/
theorem foldl_pair_trace {α β : Type} (f : β → α → β) :
    ∀ (l : List α) (b : β) (tr : List α),
      (l.foldl (fun acc p => (f acc.1 p, acc.2 ++ [p])) (b, tr)).2 = tr ++ l
  | [], _, _ => by simp [List.foldl]
  | p :: l, b, tr => by
      simpa [List.foldl] using foldl_pair_trace f l (f b p) (tr ++ [p])

theorem ct_tokenizer_load_trace : ct_tokenizer_load.2 = special_cases := by
  simpa [ct_tokenizer_load] using
    foldl_pair_trace (fun tbl (p : String × List SpacyAttr) => add_special_case tbl p.1 p.2)
      special_cases ([] : List (String × List SpacyAttr)) []

end JustTheFacts

namespace JustTheFacts

/-! ## The exception table denotes a mapping -/

theorem lookup_map_replace (k : String) (v : List SpacyAttr) :
    ∀ tbl : List (String × List SpacyAttr),
      (tbl.map (fun p => if p.1 == k then (k, v) else p)).lookup k =
        if tbl.any (fun p => p.1 == k) then some v else none
  | [] => by simp
  | p :: t => by
      obtain ⟨a, b⟩ := p
      by_cases hpk : a = k
      · simp [List.lookup_cons, hpk, lookup_map_replace k v t]
      · have hkp : (k == a) = false := beq_eq_false_iff_ne.mpr (fun h => hpk h.symm)
        have hak : (a == k) = false := beq_eq_false_iff_ne.mpr hpk
        simp only [List.map_cons, hak, Bool.false_eq_true, if_false, List.lookup_cons, hkp,
          List.any_cons, Bool.false_or]
        exact lookup_map_replace k v t

theorem lookup_append_new (k : String) (v : List SpacyAttr) :
    ∀ tbl : List (String × List SpacyAttr),
      tbl.any (fun p => p.1 == k) = false →
      (tbl ++ [(k, v)]).lookup k = some v
  | [], _ => by simp
  | p :: t, h => by
      obtain ⟨a, b⟩ := p
      simp only [List.any_cons, Bool.or_eq_false_iff] at h
      have hk : (k == a) = false := by
        have := h.1
        simp only [beq_eq_false_iff_ne] at this
        exact beq_eq_false_iff_ne.mpr (fun hkp => this hkp.symm)
      simpa [List.cons_append, List.lookup_cons, hk] using lookup_append_new k v t h.2

/-- `add_special_case` stores the rule under its key. -/
theorem tableLookup_add_self (tbl : ExceptionTable) (k : String) (v : List SpacyAttr) :
    tableLookup (add_special_case tbl k v) k = some v := by
  unfold add_special_case tableLookup
  rcases hany : tbl.any (fun p => p.1 == k) with _ | _
  · simp only [Bool.false_eq_true, if_neg, ite_false]
    exact lookup_append_new k v tbl hany
  · simp only [ite_true]
    rw [lookup_map_replace k v tbl, hany, if_pos rfl]

/-- `add_special_case` leaves every other key untouched. -/
theorem tableLookup_add_ne (tbl : ExceptionTable) (k k' : String) (v : List SpacyAttr)
    (h : k' ≠ k) : tableLookup (add_special_case tbl k v) k' = tableLookup tbl k' := by
  have hk'k : (k' == k) = false := by simpa [beq_eq_false_iff_ne] using h
  unfold add_special_case tableLookup
  rcases hany : tbl.any (fun p => p.1 == k) with _ | _
  · simp only [Bool.false_eq_true, if_neg, ite_false]
    rw [List.lookup_append]
    rcases ht : tbl.lookup k' with _ | w
    · simp [List.lookup_cons, hk'k]
    · simp
  · simp only [ite_true]
    clear hany
    induction tbl with
    | nil => simp
    | cons p t ih =>
        rcases hpk : (p.1 == k) with _ | _
        · simp only [List.map_cons, hpk, Bool.false_eq_true, if_neg, ite_false]
          rw [List.lookup_cons, List.lookup_cons, ih]
        · have hp : p.1 = k := by simpa using hpk
          have hk'p : (k' == p.1) = false := by
            simp only [beq_eq_false_iff_ne]
            intro hkp
            exact h (hkp.trans hp)
          simp only [List.map_cons, hpk, ite_true]
          rw [List.lookup_cons, List.lookup_cons, ih]
          simp [hk'k, hk'p]

/-- Folding `add_special_case` over a list all of whose entries map their
key `k` to the value `v k` yields a table denoting exactly the mapping
that sends each key occurring in the list to its `v`-value; in particular
the result does not depend on which of several duplicate entries was
loaded last. -/
theorem tableLookup_foldl (v : String → List SpacyAttr) :
    ∀ (l : List (String × List SpacyAttr)) (t : ExceptionTable),
      (∀ p ∈ l, p.2 = v p.1) → ∀ k : String,
      tableLookup (l.foldl (fun tbl p => add_special_case tbl p.1 p.2) t) k =
        if l.any (fun p => p.1 == k) then some (v k) else tableLookup t k
  | [], t, _, k => by simp [tableLookup]
  | p :: l, t, hv, k => by
      have hp : p.2 = v p.1 := hv p (List.mem_cons_self p l)
      have ih := tableLookup_foldl v l (add_special_case t p.1 p.2)
        (fun q hq => hv q (List.mem_cons_of_mem p hq)) k
      simp only [List.foldl_cons, List.any_cons]
      rw [ih]
      by_cases hl : (l.any fun q => q.1 == k) = true
      · simp [hl]
      · simp only [Bool.not_eq_true] at hl
        by_cases hpk : p.1 = k
        · subst hpk
          simp [hl, tableLookup_add_self, hp]
        · have hk2 : k ≠ p.1 := fun hkp => hpk hkp.symm
          simp [hl, hpk, tableLookup_add_ne t p.1 k p.2 hk2]

theorem ct_tokenizer_table_lookup (k : String) :
    tableLookup ct_tokenizer_table k =
      if special_cases.any (fun p => p.1 == k) then some [SpacyAttr.mk k] else none := by
  have := tableLookup_foldl (fun t => [SpacyAttr.mk t]) special_cases
    ([] : List (String × List SpacyAttr)) special_cases_orth k
  simpa [ct_tokenizer_table, tableLookup] using this

end JustTheFacts

namespace JustTheFacts

set_option maxRecDepth 4000

theorem special_cases_countP (f : String × List SpacyAttr → Bool) :
    special_cases.countP f =
      special_cases_1.countP f + special_cases_2.countP f + special_cases_3.countP f +
      special_cases_4.countP f + special_cases_5.countP f := by
  simp only [special_cases, List.countP_append]

theorem countP_EC : special_cases.countP (fun p => p.1 == "E.C.") = 3 := by
  rw [special_cases_countP]
  rw [show special_cases_1.countP (fun p => p.1 == "E.C.") = 0 from by decide,
      show special_cases_2.countP (fun p => p.1 == "E.C.") = 0 from by decide,
      show special_cases_3.countP (fun p => p.1 == "E.C.") = 0 from by decide,
      show special_cases_4.countP (fun p => p.1 == "E.C.") = 0 from by decide,
      show special_cases_5.countP (fun p => p.1 == "E.C.") = 3 from by decide]

theorem countP_dcd : special_cases.countP (fun p => p.1 == ("d/c" ++ aposStr ++ "d")) = 2 := by
  rw [special_cases_countP]
  rw [show special_cases_1.countP (fun p => p.1 == ("d/c" ++ aposStr ++ "d")) = 0 from by decide,
      show special_cases_2.countP (fun p => p.1 == ("d/c" ++ aposStr ++ "d")) = 0 from by decide,
      show special_cases_3.countP (fun p => p.1 == ("d/c" ++ aposStr ++ "d")) = 0 from by decide,
      show special_cases_4.countP (fun p => p.1 == ("d/c" ++ aposStr ++ "d")) = 0 from by decide,
      show special_cases_5.countP (fun p => p.1 == ("d/c" ++ aposStr ++ "d")) = 2 from by decide]

theorem countP_qd : special_cases.countP (fun p => p.1 == "q.d.") = 2 := by
  rw [special_cases_countP]
  rw [show special_cases_1.countP (fun p => p.1 == "q.d.") = 0 from by decide,
      show special_cases_2.countP (fun p => p.1 == "q.d.") = 0 from by decide,
      show special_cases_3.countP (fun p => p.1 == "q.d.") = 0 from by decide,
      show special_cases_4.countP (fun p => p.1 == "q.d.") = 1 from by decide,
      show special_cases_5.countP (fun p => p.1 == "q.d.") = 1 from by decide]

theorem countP_Mr : special_cases.countP (fun p => p.1 == "Mr.") = 2 := by
  rw [special_cases_countP]
  rw [show special_cases_1.countP (fun p => p.1 == "Mr.") = 0 from by decide,
      show special_cases_2.countP (fun p => p.1 == "Mr.") = 1 from by decide,
      show special_cases_3.countP (fun p => p.1 == "Mr.") = 0 from by decide,
      show special_cases_4.countP (fun p => p.1 == "Mr.") = 0 from by decide,
      show special_cases_5.countP (fun p => p.1 == "Mr.") = 1 from by decide]

theorem countP_afib : special_cases.countP (fun p => p.1 == "a.fib") = 2 := by
  rw [special_cases_countP]
  rw [show special_cases_1.countP (fun p => p.1 == "a.fib") = 0 from by decide,
      show special_cases_2.countP (fun p => p.1 == "a.fib") = 0 from by decide,
      show special_cases_3.countP (fun p => p.1 == "a.fib") = 0 from by decide,
      show special_cases_4.countP (fun p => p.1 == "a.fib") = 0 from by decide,
      show special_cases_5.countP (fun p => p.1 == "a.fib") = 2 from by decide]

end JustTheFacts

namespace JustTheFacts

set_option maxRecDepth 4000

/-! ## Claim theorems: the special-case table (C1, C7, C9) -/

/-- C1: Every special-case exception rule maps a literal string to the
instruction to keep it as one unsplit token: for every entry
`(term, attrs)` of `special_cases`, `attrs` is the one-element list whose
`ORTH` attribute equals `term` exactly, so adding the entry to the
tokenizer's exception table never rewrites or splits the string. -/
theorem special_case_rules_preserve_term :
    ∀ p ∈ special_cases, p.2 = [SpacyAttr.mk p.1] :=
  special_cases_orth

/-- Witness for `special_case_rules_preserve_term` at the first entry of
the table. -/
theorem special_case_rules_preserve_term_witness :
    ("A.A.A.", [SpacyAttr.mk ("A.A.A.")]) ∈ special_cases ∧
    (("A.A.A.", [SpacyAttr.mk ("A.A.A.")]) : String × List SpacyAttr).2 =
      [SpacyAttr.mk (("A.A.A.", [SpacyAttr.mk ("A.A.A.")]) : String × List SpacyAttr).1] :=
  ⟨by decide, special_case_rules_preserve_term _ (by decide)⟩

/-- C7: the special-case exception table is a static list of several
hundred entries (at least 200 and fewer than 1000), and the loading loop
of `ct_tokenizer` performs exactly one `add_special_case` call per entry,
in list order (the recorded call trace is the list itself; being a pure
value, the list is never mutated). -/
theorem special_cases_static_loaded_once :
    200 ≤ special_cases.length ∧ special_cases.length < 1000 ∧
    ct_tokenizer_load.2 = special_cases :=
  ⟨by rw [special_cases_length]; norm_num,
   by rw [special_cases_length]; norm_num,
   ct_tokenizer_load_trace⟩

/-- C9 counterexample: the key `d/c'd` occurs exactly twice in
`special_cases`, not three times as the claim states. -/
theorem special_cases_dcd_twice_not_thrice :
    special_cases.countP (fun p => p.1 == ("d/c" ++ aposStr ++ "d")) = 2 ∧
    special_cases.countP (fun p => p.1 == ("d/c" ++ aposStr ++ "d")) ≠ 3 := by
  refine ⟨countP_dcd, ?_⟩
  rw [countP_dcd]
  norm_num

/-- C9 (amended): `special_cases` contains duplicate keys — for example
`E.C.` three times, and `d/c'd`, `q.d.`, `Mr.`, `a.fib` twice each — but
every pair of entries sharing a key carries identical attribute values,
so the exception table produced by folding the list through
`add_special_case` is a well-defined mapping that does not depend on
which duplicate is loaded last: looking up any key present in the list
yields its unique one-element `ORTH` record, and any absent key is
unbound. -/
theorem special_cases_duplicates_coherent :
    special_cases.countP (fun p => p.1 == "E.C.") = 3 ∧
    special_cases.countP (fun p => p.1 == ("d/c" ++ aposStr ++ "d")) = 2 ∧
    special_cases.countP (fun p => p.1 == "q.d.") = 2 ∧
    special_cases.countP (fun p => p.1 == "Mr.") = 2 ∧
    special_cases.countP (fun p => p.1 == "a.fib") = 2 ∧
    (∀ p ∈ special_cases, ∀ q ∈ special_cases, p.1 = q.1 → p.2 = q.2) ∧
    (∀ k : String, tableLookup ct_tokenizer_table k =
      if special_cases.any (fun p => p.1 == k) then some [SpacyAttr.mk k] else none) := by
  refine ⟨countP_EC, countP_dcd, countP_qd, countP_Mr, countP_afib, ?_, ct_tokenizer_table_lookup⟩
  intro p hp q hq hpq
  rw [special_cases_orth p hp, special_cases_orth q hq, hpq]

end JustTheFacts

namespace JustTheFacts

/-! ## Soundness of the matcher: characters inside a match come from the
pattern's character classes -/

/-- `clsOK P r` holds when every character accepted by any character
class occurring in `r` satisfies `P`. -/
def clsOK (P : Char → Prop) : RE → Prop
  | RE.eps => True
  | RE.cls rs => ∀ c : Char, inCls rs c = true → P c
  | RE.seq a b => clsOK P a ∧ clsOK P b
  | RE.alt a b => clsOK P a ∧ clsOK P b
  | RE.star a => clsOK P a
  | RE.bos => True
  | RE.eos => True
  | RE.wb => True

theorem starLoop_sound {Q : Nat → Nat → Prop} (step : Nat → List Nat)
    (hrefl : ∀ i, Q i i) (htrans : ∀ i j k, Q i j → Q j k → Q i k)
    (hstep : ∀ i j, j ∈ step i → Q i j) :
    ∀ (fuel i j : Nat), j ∈ starLoop step fuel i → Q i j
  | 0, i, j, h => by
      simp only [starLoop, List.mem_singleton] at h
      subst h
      exact hrefl _
  | fuel + 1, i, j, h => by
      simp only [starLoop, List.mem_cons, List.mem_flatMap, List.mem_filter] at h
      rcases h with rfl | ⟨j', ⟨hstep', _⟩, hj⟩
      · exact hrefl _
      · exact htrans _ j' j (hstep _ j' hstep')
          (starLoop_sound step hrefl htrans hstep fuel j' j hj)

/-- Any match of `r` runs left to right and touches only characters
satisfying the class predicate of `r`: if `j` is an end position of a
match of `r` starting at `i`, then `i ≤ j` and every character of the
matched span satisfies `P`. -/
theorem matchEnds_sound (full : List Char) (P : Char → Prop) :
    ∀ r : RE, clsOK P r → ∀ i j : Nat, j ∈ matchEnds full r i →
      i ≤ j ∧ ∀ (k : Nat) (hk : k < full.length), i ≤ k → k < j → P (full.get ⟨k, hk⟩)
  | RE.eps, _, i, j, h => by
      simp only [matchEnds, List.mem_singleton] at h
      subst h
      exact ⟨Nat.le_refl _, fun k hk h1 h2 => absurd (Nat.lt_of_le_of_lt h1 h2) (Nat.lt_irrefl _)⟩
  | RE.cls rs, hok, i, j, h => by
      rcases hg : full[i]? with _ | c
      · simp [matchEnds, hg] at h
      · rcases hin : inCls rs c with _ | _
        · simp [matchEnds, hg, hin] at h
        · simp only [matchEnds, hg, hin, if_true, List.mem_singleton] at h
          subst h
          refine ⟨Nat.le_succ i, fun k hk h1 h2 => ?_⟩
          have hki : k = i := Nat.le_antisymm (Nat.lt_succ_iff.mp h2) h1
          subst hki
          have hgk : full.get ⟨k, hk⟩ = c := by
            have := List.getElem?_eq_getElem (l := full) (n := k) hk
            rw [hg] at this
            have h2 := Option.some.inj this
            simpa [List.get_eq_getElem] using h2.symm
          rw [hgk]
          exact hok c hin
  | RE.seq a b, hok, i, j, h => by
      simp only [matchEnds, List.mem_dedup, List.mem_flatMap] at h
      obtain ⟨m, hm, hj⟩ := h
      obtain ⟨ham, hachars⟩ := matchEnds_sound full P a hok.1 i m hm
      obtain ⟨hbm, hbchars⟩ := matchEnds_sound full P b hok.2 m j hj
      refine ⟨Nat.le_trans ham hbm, fun k hk h1 h2 => ?_⟩
      by_cases hkm : k < m
      · exact hachars k hk h1 hkm
      · exact hbchars k hk (Nat.le_of_not_lt hkm) h2
  | RE.alt a b, hok, i, j, h => by
      simp only [matchEnds, List.mem_dedup, List.mem_append] at h
      rcases h with h | h
      · exact matchEnds_sound full P a hok.1 i j h
      · exact matchEnds_sound full P b hok.2 i j h
  | RE.star a, hok, i, j, h => by
      simp only [matchEnds] at h
      refine starLoop_sound (matchEnds full a)
        (Q := fun i j => i ≤ j ∧ ∀ (k : Nat) (hk : k < full.length), i ≤ k → k < j →
          P (full.get ⟨k, hk⟩)) (fun i => ?_) (fun i m j hq1 hq2 => ?_)
        (fun i j hj => matchEnds_sound full P a hok i j hj)
        (full.length + 1) i j h
      · exact ⟨Nat.le_refl _, fun k hk h1 h2 => absurd (Nat.lt_of_le_of_lt h1 h2) (Nat.lt_irrefl _)⟩
      · refine ⟨Nat.le_trans hq1.1 hq2.1, fun k hk h1 h2 => ?_⟩
        by_cases hkm : k < m
        · exact hq1.2 k hk h1 hkm
        · exact hq2.2 k hk (Nat.le_of_not_lt hkm) h2
  | RE.bos, _, i, j, h => by
      by_cases hi : i = 0
      · subst hi
        simp [matchEnds] at h
        subst h
        exact ⟨Nat.le_refl _, fun k hk h1 h2 => absurd (Nat.lt_of_le_of_lt h1 h2) (Nat.lt_irrefl _)⟩
      · simp [matchEnds, hi] at h
  | RE.eos, _, i, j, h => by
      have hji : j = i := by
        by_cases h1 : i = full.length
        · simp [matchEnds, h1] at h
          omega
        · by_cases h2 : i + 1 = full.length ∧ full[i]? = some '\n'
          · simp only [matchEnds, if_neg h1, if_pos h2, List.mem_singleton] at h
            exact h
          · simp [matchEnds, h1, h2] at h
      subst hji
      exact ⟨Nat.le_refl _, fun k hk h1 h2 => absurd (Nat.lt_of_le_of_lt h1 h2) (Nat.lt_irrefl _)⟩
  | RE.wb, _, i, j, h => by
      by_cases hb : atWordBoundary full i = true
      · simp [matchEnds, hb] at h
        subst h
        exact ⟨Nat.le_refl _, fun k hk h1 h2 => absurd (Nat.lt_of_le_of_lt h1 h2) (Nat.lt_irrefl _)⟩
      · simp [matchEnds, hb] at h

end JustTheFacts

namespace JustTheFacts

/-- Characters accepted by a class whose ranges all end below a bound
have code points below that bound. -/
theorem inCls_bounded (rs : List (Char × Char)) (bound : Nat)
    (hb : rs.all (fun p => p.2.toNat < bound) = true) :
    ∀ c : Char, inCls rs c = true → c.toNat < bound := by
  intro c hc
  simp only [inCls, List.any_eq_true] at hc
  obtain ⟨p, hp, hcp⟩ := hc
  simp only [Bool.and_eq_true, decide_eq_true_eq] at hcp
  simp only [List.all_eq_true, decide_eq_true_eq] at hb
  exact Nat.lt_of_le_of_lt hcp.2 (hb p hp)

/-- To prove a property of every character accepted by an ASCII class it
suffices to check the property on the 128 ASCII code points. -/
theorem inCls_ascii (P : Char → Prop) (rs : List (Char × Char))
    (hb : rs.all (fun p => p.2.toNat < 128) = true)
    (hkey : ∀ n : Nat, n < 128 → inCls rs (Char.ofNat n) = true → P (Char.ofNat n)) :
    ∀ c : Char, inCls rs c = true → P c := by
  intro c hc
  have h128 := inCls_bounded rs 128 hb c hc
  have hn := hkey c.toNat h128
  rw [Char.ofNat_toNat] at hn
  exact hn hc

/-- No character class of `prefix_re` accepts a letter (the `+-?` range
stops at code point 63, below `A`). -/
theorem prefix_re_clsOK : clsOK (fun c => c.isAlpha = false) prefix_re := by
  have cp : ∀ c : Char, inCls prefixCls c = true → c.isAlpha = false :=
    inCls_ascii _ prefixCls (by decide) (by decide)
  have cang : ∀ c : Char, inCls [('>', '>'), ('<', '<')] c = true → c.isAlpha = false :=
    inCls_ascii _ _ (by decide) (by decide)
  have ceq : ∀ c : Char, inCls [('=', '=')] c = true → c.isAlpha = false :=
    inCls_ascii _ _ (by decide) (by decide)
  exact ⟨trivial, ⟨⟨cp, cp⟩, cang, ceq⟩, ⟨cp, cp⟩, cang, ceq⟩

/-- Every character class of `suffix_re` rejects digits, and the only
letter any of them accepts is the `s` of the `'s` alternative. -/
theorem suffix_re_clsOK :
    clsOK (fun c => c.isDigit = false ∧ (c.isAlpha = true → c = 's')) suffix_re := by
  have csuf : ∀ c : Char, inCls suffixCls c = true →
      c.isDigit = false ∧ (c.isAlpha = true → c = 's') :=
    inCls_ascii _ suffixCls (by decide) (by decide)
  have capos : ∀ c : Char, inCls [(apos, apos)] c = true →
      c.isDigit = false ∧ (c.isAlpha = true → c = 's') :=
    inCls_ascii _ _ (by decide) (by decide)
  have cs : ∀ c : Char, inCls [('s', 's')] c = true →
      c.isDigit = false ∧ (c.isAlpha = true → c = 's') :=
    inCls_ascii _ _ (by decide) (by decide)
  exact ⟨⟨csuf, capos, cs, trivial⟩, trivial⟩

/-- No character class of `infix_re` accepts a letter or a digit. -/
theorem infix_re_clsOK :
    clsOK (fun c => c.isAlpha = false ∧ c.isDigit = false) infix_re := by
  have cinf : ∀ c : Char, inCls infixCls c = true →
      c.isAlpha = false ∧ c.isDigit = false :=
    inCls_ascii _ infixCls (by decide) (by decide)
  exact ⟨cinf, cinf⟩

end JustTheFacts

namespace JustTheFacts

/-! ## Claim theorems: the affix patterns (C3) -/

/-- C3 counterexample: `prefix_re` matches the one-character string `0`
in full (because the class item `+-?` is a code-point range that contains
the digits), so a prefix matched by `prefix_re` can consist of a digit —
it is not true that every matched prefix is free of letters and digits. -/
theorem affix_patterns_counterexample :
    ¬ (∀ (s : String) (j : Nat), j ∈ matchEnds s.toList prefix_re 0 →
        ∀ (k : Nat) (hk : k < s.toList.length), k < j →
          (s.toList.get ⟨k, hk⟩).isAlpha = false ∧ (s.toList.get ⟨k, hk⟩).isDigit = false) := by
  intro hcl
  have h1 : (1 : Nat) ∈ matchEnds (("0").toList) prefix_re 0 := by decide
  have h2 := (hcl ("0") 1 h1 0 (by decide) (by decide)).2
  exact absurd h2 (by decide)

/-- C3 (amended): any prefix matched by `prefix_re` contains no letter
(but may contain digits, since the class item `+-?` is the code-point
range 43-63, which covers `0`-`9`); any span matched by `suffix_re`
contains no digit and no letter other than the `s` of the literal `'s`
alternative; and any infix span matched by `infix_re` contains neither a
letter nor a digit. -/
theorem affix_patterns_charset (s : String) :
    (∀ (j : Nat), j ∈ matchEnds s.toList prefix_re 0 →
      ∀ (k : Nat) (hk : k < s.toList.length), k < j →
        (s.toList.get ⟨k, hk⟩).isAlpha = false) ∧
    (∀ (i j : Nat), j ∈ matchEnds s.toList suffix_re i →
      ∀ (k : Nat) (hk : k < s.toList.length), i ≤ k → k < j →
        (s.toList.get ⟨k, hk⟩).isDigit = false ∧
          ((s.toList.get ⟨k, hk⟩).isAlpha = true → s.toList.get ⟨k, hk⟩ = 's')) ∧
    (∀ (i j : Nat), j ∈ matchEnds s.toList infix_re i →
      ∀ (k : Nat) (hk : k < s.toList.length), i ≤ k → k < j →
        (s.toList.get ⟨k, hk⟩).isAlpha = false ∧ (s.toList.get ⟨k, hk⟩).isDigit = false) := by
  refine ⟨fun j hj k hk h2 => ?_, fun i j hj k hk h1 h2 => ?_, fun i j hj k hk h1 h2 => ?_⟩
  · exact (matchEnds_sound s.toList _ prefix_re prefix_re_clsOK 0 j hj).2 k hk (Nat.zero_le k) h2
  · exact (matchEnds_sound s.toList _ suffix_re suffix_re_clsOK i j hj).2 k hk h1 h2
  · exact (matchEnds_sound s.toList _ infix_re infix_re_clsOK i j hj).2 k hk h1 h2

/-- Witness for `affix_patterns_charset`: the suffix match `,` of the
string `x,` and the infix match `.` of `a.b`, evaluated concretely. -/
theorem affix_patterns_charset_witness :
    ((("x,").toList.get ⟨1, by decide⟩).isDigit = false ∧
      ((("x,").toList.get ⟨1, by decide⟩).isAlpha = true → ("x,").toList.get ⟨1, by decide⟩ = 's')) ∧
    ((("a.b").toList.get ⟨1, by decide⟩).isAlpha = false ∧
      (("a.b").toList.get ⟨1, by decide⟩).isDigit = false) :=
  ⟨(affix_patterns_charset ("x,")).2.1 1 2 (by decide) 1 (by decide) (by decide) (by decide),
   (affix_patterns_charset ("a.b")).2.2 1 2 (by decide) 1 (by decide) (by decide) (by decide)⟩

end JustTheFacts

namespace JustTheFacts

/-! ## Claim theorems: `token_match` (C4) and the joined exclude pattern (C8) -/

/-- C4: `token_match` is a total boolean classifier in which the include
set takes precedence over the exclude set: whenever the include pattern
has a match the result is `false` (even if the exclude pattern also
matches); the result is `true` exactly when the include pattern has no
match and the exclude pattern has one; otherwise the result is `false`. -/
theorem token_match_include_precedence (s : String) (include_rgx exclude_rgx : RE) :
    (reSearch include_rgx s = true → token_match s include_rgx exclude_rgx = false) ∧
    (token_match s include_rgx exclude_rgx = true ↔
      (reSearch include_rgx s = false ∧ reSearch exclude_rgx s = true)) ∧
    ((reSearch include_rgx s = false ∧ reSearch exclude_rgx s = false) →
      token_match s include_rgx exclude_rgx = false) := by
  rcases hinc : reSearch include_rgx s with _ | _ <;>
    rcases hexc : reSearch exclude_rgx s with _ | _ <;>
      simp [token_match, hinc, hexc]

/-- Witness for `token_match_include_precedence` at the compiled include
and exclude patterns of `build_token_match_rgx` on the string `0.3/0.7`. -/
theorem token_match_include_precedence_witness :
    (reSearch build_token_match_rgx.1 ("0.3/0.7") = true →
      token_match ("0.3/0.7") build_token_match_rgx.1 build_token_match_rgx.2 = false) ∧
    (token_match ("0.3/0.7") build_token_match_rgx.1 build_token_match_rgx.2 = true ↔
      (reSearch build_token_match_rgx.1 ("0.3/0.7") = false ∧
        reSearch build_token_match_rgx.2 ("0.3/0.7") = true)) ∧
    ((reSearch build_token_match_rgx.1 ("0.3/0.7") = false ∧
        reSearch build_token_match_rgx.2 ("0.3/0.7") = false) →
      token_match ("0.3/0.7") build_token_match_rgx.1 build_token_match_rgx.2 = false) :=
  token_match_include_precedence ("0.3/0.7") build_token_match_rgx.1 build_token_match_rgx.2

theorem mem_matchEnds_seq {full : List Char} {a b : RE} {i j : Nat} :
    j ∈ matchEnds full (RE.seq a b) i ↔
      ∃ m, m ∈ matchEnds full a i ∧ j ∈ matchEnds full b m := by
  simp [matchEnds, List.mem_dedup, List.mem_flatMap]

/-- On a string without newlines, `$` matches only at the end of the
string. -/
theorem matchEnds_eos_no_newline {full : List Char} (hnl : ∀ c ∈ full, c ≠ '\n')
    {i j : Nat} (h : j ∈ matchEnds full RE.eos i) : j = i ∧ i = full.length := by
  by_cases h1 : i = full.length
  · subst h1
    simp [matchEnds] at h
    exact ⟨h, rfl⟩
  · by_cases h2 : i + 1 = full.length ∧ full[i]? = some '\n'
    · exact absurd rfl (hnl '\n' (List.getElem?_mem h2.2))
    · simp [matchEnds, h1, h2] at h

/-- A character class cannot match at or past the end of the string. -/
theorem matchEnds_cls_oob {full : List Char} {rs : List (Char × Char)} {i : Nat}
    (h : full.length ≤ i) : matchEnds full (RE.cls rs) i = [] := by
  have hg : full[i]? = none := List.getElem?_eq_none h
  simp [matchEnds, hg]

/-- The joined eighth exclude pattern
`^([A-Z][\.]|[1-9][0-9]*[\.)])$[0-9]+[/][0-9]+` is unsatisfiable on any
input without a newline: its `$` can only match at the end of the string,
where the mandatory digit that follows it has no character left to
consume. -/
theorem exclude_rgx_8_unsat (s : String) (hnl : ∀ c ∈ s.toList, c ≠ '\n') :
    reSearch exclude_rgx_8 s = false := by
  rw [reSearch]
  apply List.any_eq_false.mpr
  intro i _
  suffices hempty : matchEnds s.toList exclude_rgx_8 i = [] by
    have hempty2 : matchEnds s.data exclude_rgx_8 i = [] := hempty
    simp [hempty2]
  apply List.eq_nil_iff_forall_not_mem.mpr
  intro j hj
  obtain ⟨m1, _, hj1⟩ := mem_matchEnds_seq.mp hj
  obtain ⟨m2, _, hj2⟩ := mem_matchEnds_seq.mp hj1
  obtain ⟨m3, hm3, hj3⟩ := mem_matchEnds_seq.mp hj2
  obtain ⟨hm3e, hm2len⟩ := matchEnds_eos_no_newline hnl hm3
  obtain ⟨m4, hm4, _⟩ := mem_matchEnds_seq.mp hj3
  obtain ⟨m5, hm5, _⟩ := mem_matchEnds_seq.mp hm4
  rw [hm3e, hm2len, show (REdigit : RE) = RE.cls [('0', '9')] from rfl,
      matchEnds_cls_oob (Nat.le_refl _)] at hm5
  exact absurd hm5 (List.not_mem_nil m5)

/-- C8: in the source the eighth and ninth exclude string literals are
adjacent with no comma, so they concatenate into the single pattern
`^([A-Z][\.]|[1-9][0-9]*[\.)])$[0-9]+[/][0-9]+`, which is unsatisfiable
on newline-free input; consequently the bare fraction `1/2` matches
neither the include patterns nor the joined exclude patterns, and
`token_match` returns `false` on it instead of preserving the fraction. -/
theorem exclude_concat_makes_fraction_unmatched :
    (∀ s : String, (∀ c ∈ s.toList, c ≠ '\n') → reSearch exclude_rgx_8 s = false) ∧
    reSearch build_token_match_rgx.1 ("1/2") = false ∧
    reSearch build_token_match_rgx.2 ("1/2") = false ∧
    token_match ("1/2") build_token_match_rgx.1 build_token_match_rgx.2 = false := by
  refine ⟨exclude_rgx_8_unsat, ?_, ?_, ?_⟩ <;> decide

/-- Witness for `exclude_concat_makes_fraction_unmatched` on the string
`1/2` itself. -/
theorem exclude_concat_makes_fraction_unmatched_witness :
    reSearch exclude_rgx_8 ("1/2") = false :=
  exclude_concat_makes_fraction_unmatched.1 ("1/2") (by decide)

end JustTheFacts

namespace JustTheFacts

/-! ## Facts about `eval_callback` and `run_epochs` -/

theorem eval_callback_dirs (accs : Nat → ℚ × ℚ) (n : Nat) (s : TuneState)
    (h : s.epoch_dirs = []) : (eval_callback accs n s).epoch_dirs = [] := by
  simp only [eval_callback]
  split <;> simp [h, List.erase_cons_head]

theorem eval_callback_results (accs : Nat → ℚ × ℚ) (n : Nat) (s : TuneState) :
    (eval_callback accs n s).all_results = s.all_results ++
      [{ epoch := n + 1, clinical_knowledge_acc := (accs n).1,
         college_medicine_acc := (accs n).2 }] := by
  simp only [eval_callback]
  split <;> rfl

theorem eval_callback_best_lt (accs : Nat → ℚ × ℚ) (n : Nat) (s : TuneState)
    (h : s.best_accuracy < (accs n).1) :
    (eval_callback accs n s).best_accuracy = (accs n).1 ∧
    (eval_callback accs n s).best_epoch = (n : ℤ) ∧
    (eval_callback accs n s).best_model = some n := by
  simp only [eval_callback]
  rw [if_pos h]
  exact ⟨rfl, rfl, rfl⟩

theorem eval_callback_best_ge (accs : Nat → ℚ × ℚ) (n : Nat) (s : TuneState)
    (h : ¬ s.best_accuracy < (accs n).1) :
    (eval_callback accs n s).best_accuracy = s.best_accuracy ∧
    (eval_callback accs n s).best_epoch = s.best_epoch ∧
    (eval_callback accs n s).best_model = s.best_model := by
  simp only [eval_callback]
  rw [if_neg h]
  exact ⟨rfl, rfl, rfl⟩

/-- The full invariant maintained by the per-epoch callback: after `n`
epochs, no `model_epoch_<i>` directory remains, `all_results` holds one
entry per epoch in order, and either no accuracy has ever exceeded the
initial `best_accuracy = 0` (and then `best_epoch = -1` and no
`best_model` exists) or the tracked best is the earliest epoch attaining
the running maximum. -/
theorem run_epochs_invariant (accs : Nat → ℚ × ℚ) :
    ∀ n : Nat,
      (run_epochs accs n).epoch_dirs = [] ∧
      (run_epochs accs n).all_results =
        (List.range n).map (fun j =>
          { epoch := j + 1, clinical_knowledge_acc := (accs j).1,
            college_medicine_acc := (accs j).2 }) ∧
      (((run_epochs accs n).best_epoch = -1 ∧ (run_epochs accs n).best_model = none ∧
          (run_epochs accs n).best_accuracy = 0 ∧ ∀ j, j < n → (accs j).1 ≤ 0) ∨
        (∃ i, i < n ∧ (run_epochs accs n).best_epoch = (i : ℤ) ∧
          (run_epochs accs n).best_model = some i ∧
          (run_epochs accs n).best_accuracy = (accs i).1 ∧ 0 < (accs i).1 ∧
          (∀ j, j < n → (accs j).1 ≤ (accs i).1) ∧ (∀ j, j < i → (accs j).1 < (accs i).1))) := by
  intro n
  induction n with
  | zero =>
      refine ⟨rfl, rfl, Or.inl ⟨rfl, rfl, rfl, fun j hj => absurd hj (Nat.not_lt_zero j)⟩⟩
  | succ n ih =>
      obtain ⟨hdirs, hres, hbest⟩ := ih
      have hstep : run_epochs accs (n + 1) = eval_callback accs n (run_epochs accs n) := rfl
      have hdirs' : (run_epochs accs (n + 1)).epoch_dirs = [] := by
        rw [hstep]; exact eval_callback_dirs accs n _ hdirs
      have hres' : (run_epochs accs (n + 1)).all_results =
          (List.range (n + 1)).map (fun j =>
            { epoch := j + 1, clinical_knowledge_acc := (accs j).1,
              college_medicine_acc := (accs j).2 }) := by
        rw [hstep, eval_callback_results, hres, List.range_succ, List.map_append]
        rfl
      refine ⟨hdirs', hres', ?_⟩
      by_cases hcmp : (run_epochs accs n).best_accuracy < (accs n).1
      · obtain ⟨hacc, hep, hmod⟩ := eval_callback_best_lt accs n _ hcmp
        rw [hstep] at *
        refine Or.inr ⟨n, Nat.lt_succ_self n, hep, hmod, hacc, ?_, ?_, ?_⟩
        · rcases hbest with ⟨_, _, hb0, _⟩ | ⟨i, _, _, _, hbi, hpos, _, _⟩
          · rw [hb0] at hcmp; exact hcmp
          · rw [hbi] at hcmp; exact lt_trans hpos hcmp
        · intro j hj
          rcases Nat.lt_succ_iff_lt_or_eq.mp hj with hj | hj
          · rcases hbest with ⟨_, _, hb0, hle⟩ | ⟨i, _, _, _, hbi, _, hle, _⟩
            · exact le_of_lt (lt_of_le_of_lt (hle j hj) (hb0 ▸ hcmp))
            · exact le_of_lt (lt_of_le_of_lt (hle j hj) (hbi ▸ hcmp))
          · subst hj; exact le_refl _
        · intro j hj
          rcases hbest with ⟨_, _, hb0, hle⟩ | ⟨i, _, _, _, hbi, _, hle, _⟩
          · exact lt_of_le_of_lt (hle j hj) (hb0 ▸ hcmp)
          · exact lt_of_le_of_lt (hle j hj) (hbi ▸ hcmp)
      · obtain ⟨hacc, hep, hmod⟩ := eval_callback_best_ge accs n _ hcmp
        rw [hstep] at *
        rcases hbest with ⟨he, hm, hb0, hle⟩ | ⟨i, hin, hei, hmi, hbi, hpos, hle, hstrict⟩
        · refine Or.inl ⟨hep.trans he, hmod.trans hm, hacc.trans hb0, ?_⟩
          intro j hj
          rcases Nat.lt_succ_iff_lt_or_eq.mp hj with hj | hj
          · exact hle j hj
          · subst hj
            rw [hb0] at hcmp
            exact le_of_not_lt hcmp
        · refine Or.inr ⟨i, Nat.lt_succ_of_lt hin, hep.trans hei, hmod.trans hmi,
            hacc.trans hbi, hpos, ?_, hstrict⟩
          intro j hj
          rcases Nat.lt_succ_iff_lt_or_eq.mp hj with hj | hj
          · exact hle j hj
          · subst hj
            rw [hbi] at hcmp
            exact le_of_not_lt hcmp

end JustTheFacts

namespace JustTheFacts

/-! ## Claim theorems: best-model checkpointing and the performance file (C2, C5) -/

/-- C2 counterexample: a run whose single epoch has clinical-knowledge
accuracy exactly `0` (equal to the initial `best_accuracy`): the strict
`>` comparison never fires, so after the callback `best_epoch` is still
`-1` — not epoch `0`, the earliest epoch attaining the maximum observed
accuracy — and no `best_model` directory exists at all. -/
theorem best_model_zero_accuracy_cex :
    (run_epochs (fun _ => ((0 : ℚ), (0 : ℚ))) 1).best_epoch = -1 ∧
    (run_epochs (fun _ => ((0 : ℚ), (0 : ℚ))) 1).best_model = none ∧
    (-1 : ℤ) ≠ ((0 : Nat) : ℤ) := by
  refine ⟨?_, ?_, by decide⟩ <;> rfl

/-- C2 (amended): provided at least one epoch in `0..e` attains strictly
positive clinical-knowledge accuracy, after the `eval_callback` for epoch
`e` completes, `best_accuracy` equals the maximum clinical-knowledge
accuracy observed over epochs `0..e` (it is attained at the tracked best
epoch and dominates every epoch), `best_epoch` is the earliest epoch
attaining that maximum (ties resolved by the strict `>` in favour of the
earlier epoch), the `best_model` directory holds exactly that epoch's
checkpoint, and every per-epoch checkpoint directory has been deleted.
Without any positive accuracy the strict comparison against the initial
`best_accuracy = 0` never fires, `best_epoch` stays `-1`, and no
`best_model` directory is ever created. -/
theorem eval_callback_best_invariant (accs : Nat → ℚ × ℚ) (e : Nat)
    (hpos : ∃ i, i ≤ e ∧ 0 < (accs i).1) :
    ∃ i, i ≤ e ∧
      (run_epochs accs (e + 1)).best_epoch = (i : ℤ) ∧
      (run_epochs accs (e + 1)).best_model = some i ∧
      (run_epochs accs (e + 1)).best_accuracy = (accs i).1 ∧
      (∀ j, j ≤ e → (accs j).1 ≤ (accs i).1) ∧
      (∀ j, j < i → (accs j).1 < (accs i).1) ∧
      (run_epochs accs (e + 1)).epoch_dirs = [] := by
  obtain ⟨hdirs, _, hbest⟩ := run_epochs_invariant accs (e + 1)
  rcases hbest with ⟨_, _, _, hle⟩ | ⟨i, hin, hei, hmi, hbi, _, hle, hstrict⟩
  · obtain ⟨i0, hi0, hpos0⟩ := hpos
    exact absurd (hle i0 (Nat.lt_succ_of_le hi0)) (not_le.mpr hpos0)
  · exact ⟨i, Nat.lt_succ_iff.mp hin, hei, hmi, hbi,
      fun j hj => hle j (Nat.lt_succ_of_le hj), hstrict, hdirs⟩

/-- Witness for `eval_callback_best_invariant`: one epoch with accuracy
pair `(1, 1)`. -/
theorem eval_callback_best_invariant_witness :
    ∃ i : Nat, i ≤ 0 ∧
      (run_epochs (fun _ => ((1 : ℚ), (1 : ℚ))) 1).best_epoch = (i : ℤ) ∧
      (run_epochs (fun _ => ((1 : ℚ), (1 : ℚ))) 1).best_model = some i ∧
      (run_epochs (fun _ => ((1 : ℚ), (1 : ℚ))) 1).best_accuracy = 1 ∧
      (∀ j : Nat, j ≤ 0 → (1 : ℚ) ≤ 1) ∧
      (∀ j : Nat, j < i → (1 : ℚ) < 1) ∧
      (run_epochs (fun _ => ((1 : ℚ), (1 : ℚ))) 1).epoch_dirs = [] := by
  simpa using eval_callback_best_invariant (fun _ => ((1 : ℚ), (1 : ℚ))) 0
    ⟨0, Nat.le_refl 0, by norm_num⟩

/-- C5: for every completed run of `main` (on rank 0), the performance
file written into the `best_model` directory holds one block per training
epoch, in epoch order, with that epoch's clinical-knowledge and
college-medicine accuracies, followed by a best-performance block giving
the 1-based best epoch, its clinical-knowledge accuracy and its
college-medicine accuracy.  A run completes exactly when the `best_model`
directory exists — i.e. when some epoch attained positive accuracy;
otherwise the final `open` raises `FileNotFoundError` (modelled by
`performance_results` returning `none`) and no file is produced. -/
theorem performance_file_contents (accs : Nat → ℚ × ℚ) (e : Nat)
    (hpos : ∃ i, i ≤ e ∧ 0 < (accs i).1) :
    ∃ i, i ≤ e ∧
      performance_results (run_epochs accs (e + 1)) =
        some ((List.range (e + 1)).map (fun j =>
            { epoch := j + 1, clinical_knowledge_acc := (accs j).1,
              college_medicine_acc := (accs j).2 }),
          ((i : ℤ) + 1, (accs i).1, some ((accs i).2))) := by
  obtain ⟨hdirs, hres, hbest⟩ := run_epochs_invariant accs (e + 1)
  rcases hbest with ⟨_, _, _, hle⟩ | ⟨i, hin, hei, hmi, hbi, _, _, _⟩
  · obtain ⟨i0, hi0, hpos0⟩ := hpos
    exact absurd (hle i0 (Nat.lt_succ_of_le hi0)) (not_le.mpr hpos0)
  · refine ⟨i, Nat.lt_succ_iff.mp hin, ?_⟩
    simp only [performance_results, hmi, hres, hei, hbi]
    have hpy : pyIdx ((List.range (e + 1)).map (fun j =>
        { epoch := j + 1, clinical_knowledge_acc := (accs j).1,
          college_medicine_acc := (accs j).2 : EpochResult })) ((i : Nat) : ℤ) =
        some { epoch := i + 1, clinical_knowledge_acc := (accs i).1,
               college_medicine_acc := (accs i).2 } := by
      rw [pyIdx, if_pos (Int.natCast_nonneg i)]
      rw [Int.toNat_natCast]
      rw [List.get?_eq_getElem?, List.getElem?_map]
      rw [List.getElem?_range hin]
      rfl
    rw [hpy]
    rfl

/-- Witness for `performance_file_contents`: one epoch with accuracy pair
`(1/2, 1/3)`. -/
theorem performance_file_contents_witness :
    ∃ i : Nat, i ≤ 0 ∧
      performance_results (run_epochs (fun _ => ((1/2 : ℚ), (1/3 : ℚ))) 1) =
        some ((List.range 1).map (fun j =>
            { epoch := j + 1, clinical_knowledge_acc := (1/2 : ℚ),
              college_medicine_acc := (1/3 : ℚ) }),
          ((i : ℤ) + 1, (1/2 : ℚ), some (1/3 : ℚ))) := by
  simpa using performance_file_contents (fun _ => ((1/2 : ℚ), (1/3 : ℚ))) 0
    ⟨0, Nat.le_refl 0, by norm_num⟩

end JustTheFacts

namespace JustTheFacts

/-! ## Facts about the stage trace (C6) -/

theorem epochs_events_head (accs : Nat → ℚ × ℚ) :
    ∀ n : Nat, 1 ≤ n → ∃ rest, epochs_events accs n =
      Event.save_checkpoint 0 :: Event.evaluate 0 :: rest := by
  intro n hn
  induction n with
  | zero => omega
  | succ m ih =>
      by_cases hm : 1 ≤ m
      · obtain ⟨rest, hr⟩ := ih hm
        refine ⟨rest ++ callback_events accs (run_epochs accs m).best_accuracy m, ?_⟩
        show epochs_events accs m ++ _ = _
        rw [hr]
        simp
      · have hm0 : m = 0 := by omega
        subst hm0
        refine ⟨if (run_epochs accs 0).best_accuracy < (accs 0).1
            then [Event.promote_best 0] else [Event.delete_checkpoint 0], ?_⟩
        show epochs_events accs 0 ++ callback_events accs (run_epochs accs 0).best_accuracy 0 = _
        simp [epochs_events, callback_events]

theorem callback_events_sub (accs : Nat → ℚ × ℚ) :
    ∀ n j : Nat, j < n →
      ∀ x, x ∈ callback_events accs (run_epochs accs j).best_accuracy j →
        x ∈ epochs_events accs n := by
  intro n
  induction n with
  | zero => intro j hj; omega
  | succ m ih =>
      intro j hj x hx
      rcases Nat.lt_succ_iff_lt_or_eq.mp hj with h | h
      · exact List.mem_append_left _ (ih j h x hx)
      · subst h
        exact List.mem_append_right _ hx

/-- Some epoch is promoted to `best_model` as soon as one epoch attains
positive accuracy: the earliest such epoch beats the (still zero) running
best. -/
theorem promote_best_occurs (accs : Nat → ℚ × ℚ) (n : Nat)
    (hpos : ∃ i, i < n ∧ 0 < (accs i).1) :
    ∃ i, Event.promote_best i ∈ epochs_events accs n := by
  classical
  obtain ⟨i1, hi1n, hpos1⟩ := hpos
  have hex : ∃ i, 0 < (accs i).1 := ⟨i1, hpos1⟩
  have hi0 : 0 < (accs (Nat.find hex)).1 := Nat.find_spec hex
  have hi0n : Nat.find hex < n := lt_of_le_of_lt (Nat.find_min' hex hpos1) hi1n
  obtain ⟨_, _, hbest⟩ := run_epochs_invariant accs (Nat.find hex)
  have hb0 : (run_epochs accs (Nat.find hex)).best_accuracy = 0 := by
    rcases hbest with ⟨_, _, h0, _⟩ | ⟨i, hii0, _, _, _, hposi, _, _⟩
    · exact h0
    · exact absurd hposi (Nat.find_min hex hii0)
  refine ⟨Nat.find hex, callback_events_sub accs n (Nat.find hex) hi0n _ ?_⟩
  rw [callback_events, hb0, if_pos hi0]
  simp

end JustTheFacts

namespace JustTheFacts

/-- C6: with FSDP enabled, at least one training epoch, and some epoch
attaining positive accuracy, `main` performs its stages in the claimed
order: the trace begins with loading the model, loading the tokenizer,
wrapping with FSDP, building the data loaders, building the
optimizer/scheduler, and entering the library `train` call, after which
the first evaluation takes place (position 7, preceded by the epoch-0
checkpoint save that `eval_callback` performs first), and every
best-model checkpoint promotion happens strictly after that first
evaluation (position at least 8). -/
theorem main_stage_order (accs : Nat → ℚ × ℚ) (n : Nat) (hn : 1 ≤ n)
    (hpos : ∃ i, i < n ∧ 0 < (accs i).1) :
    (main_trace true accs n).take 8 =
      [Event.load_model, Event.load_tokenizer, Event.wrap_fsdp, Event.build_dataloaders,
       Event.build_optimizer, Event.train_begin, Event.save_checkpoint 0,
       Event.evaluate 0] ∧
    (∃ j ep, (main_trace true accs n).get? j = some (Event.promote_best ep) ∧ 8 ≤ j) ∧
    (∀ j ep, (main_trace true accs n).get? j = some (Event.promote_best ep) → 8 ≤ j) := by
  obtain ⟨rest, hr⟩ := epochs_events_head accs n hn
  have htr : main_trace true accs n =
      [Event.load_model, Event.load_tokenizer, Event.wrap_fsdp, Event.build_dataloaders,
       Event.build_optimizer, Event.train_begin, Event.save_checkpoint 0,
       Event.evaluate 0] ++ (rest ++ [Event.train_end, Event.write_performance]) := by
    rw [main_trace, hr]
    simp
  have hforall : ∀ j ep, (main_trace true accs n).get? j = some (Event.promote_best ep) →
      8 ≤ j := by
    intro j ep hj
    by_contra hlt
    have hj8 : j < 8 := Nat.lt_of_not_le hlt
    rw [htr, List.get?_eq_getElem?, List.getElem?_append_left (by simp; omega)] at hj
    interval_cases j <;> simp at hj
  refine ⟨by rw [htr]; exact List.take_left' rfl, ?_, hforall⟩
  obtain ⟨i0, hmem⟩ := promote_best_occurs accs n hpos
  have hmem' : Event.promote_best i0 ∈ main_trace true accs n := by
    rw [htr]
    rw [hr] at hmem
    simp only [List.mem_cons] at hmem
    rcases hmem with h | h | h
    · exact absurd h (by simp)
    · exact absurd h (by simp)
    · exact List.mem_append_right _ (List.mem_append_left _ h)
  obtain ⟨j, hj⟩ := List.mem_iff_get?.mp hmem'
  exact ⟨j, i0, hj, hforall j i0 hj⟩

end JustTheFacts

namespace JustTheFacts

/-- Witness for `main_stage_order`: one epoch with accuracy pair `(1, 1)`. -/
theorem main_stage_order_witness :
    (main_trace true (fun _ => ((1 : ℚ), (1 : ℚ))) 1).take 8 =
      [Event.load_model, Event.load_tokenizer, Event.wrap_fsdp, Event.build_dataloaders,
       Event.build_optimizer, Event.train_begin, Event.save_checkpoint 0,
       Event.evaluate 0] ∧
    (∃ j ep, (main_trace true (fun _ => ((1 : ℚ), (1 : ℚ))) 1).get? j =
        some (Event.promote_best ep) ∧ 8 ≤ j) ∧
    (∀ j ep, (main_trace true (fun _ => ((1 : ℚ), (1 : ℚ))) 1).get? j =
        some (Event.promote_best ep) → 8 ≤ j) :=
  main_stage_order (fun _ => ((1 : ℚ), (1 : ℚ))) 1 (Nat.le_refl 1)
    ⟨0, Nat.lt_succ_self 0, by norm_num⟩

/-- C10: the two modules are independent and the tokenizer is
deterministic.  The tokenizer classifier, run in any two fine-tuning
driver states, returns the same verdict on every string, leaves the
driver state untouched, and always equals the pure classifier
`f_token_match` built once from `build_token_match_rgx` — i.e. its result
depends on nothing but the input string and the fixed pattern
configuration. -/
theorem tokenizer_independent_deterministic (st st' : TuneState) (s : String) :
    (token_match_in_run st s).1 = (token_match_in_run st' s).1 ∧
    (token_match_in_run st s).2 = st ∧
    (token_match_in_run st s).1 = f_token_match s :=
  ⟨rfl, rfl, rfl⟩

end JustTheFacts
